import Mathlib

/-!
# collie/store.c : the object request executor

A shallow embedding of `stat_sheep`, `read_from_one`, `read_from_other_sheeps`
and `store_queue_request` of `collie/store.c`, followed by theorems about them.

Conventions of the embedding.

* The file system below the object directory is a finite map from object ids
  to files (`snprintf(path, ..., "%s/%" PRIx64, obj_dir, oid)` is injective in
  `oid`), a file being its bytes and its `user.sheepdog.copies` attribute.
* Everything the code obtains from outside (results of system calls, of
  `connect_to` and `exec_req`, the shared `cluster_info`) is read from an
  environment `Env`, so that a statement quantified over `Env` speaks of every
  outcome of the underlying operations.
* Every call that touches the outside world is appended to a trace, and the
  table of open handles is part of the state.
* `goto again` in `read_from_one` is not bounded by the code; the embedding
  takes a number of rounds (`fuel`) and reports `hung` when it is used up.
* 64-bit unsigned arithmetic of `stat_sheep` is written with `% 2 ^ 64`.
-/

namespace Collie

/-! ## Data model -/

/-- Byte strings; a byte is kept as a natural number. -/
abbrev Bytes := List Nat

/-- Result codes `SD_RES_*`. Their numeric values are declared in a header
that is not part of `store.c`; the code only compares them with each other.
`one` is the literal `1` that `store_queue_request` assigns after a failed
peer fetch and after a failed `unlink`; `other n` is any further code a peer
may answer. `read_from_one` returns `0` in `case SD_RES_SUCCESS`, and
`store_queue_request` tests `if (ret)` on it, so the literal `1` is a
non-success code. -/
inductive Res where
  | SD_RES_SUCCESS
  | SD_RES_UNKNOWN
  | SD_RES_NO_OBJ
  | SD_RES_EIO
  | SD_RES_OLD_NODE_VER
  | SD_RES_NEW_NODE_VER
  | SD_RES_SYSTEM_ERROR
  | SD_RES_INVALID_PARMS
  | one
  | other (n : Nat)
  deriving DecidableEq, Repr

/-- Opcodes `SD_OP_*` (values declared in an absent header; the `switch`
statements of `store_queue_request` need their case labels distinct). -/
inductive Opcode where
  | SD_OP_CREATE_AND_WRITE_OBJ
  | SD_OP_WRITE_OBJ
  | SD_OP_READ_OBJ
  | SD_OP_SYNC_OBJ
  | SD_OP_REMOVE_OBJ
  | SD_OP_STAT_SHEEP
  | SD_OP_GET_NODE_LIST
  | other (n : Nat)
  deriving DecidableEq, Repr

/-- The values of `errno` the code tells apart. -/
inductive Errno where
  | ENOENT
  | EIO
  | other
  deriving DecidableEq, Repr

/-- Fields of `struct statvfs` read by `stat_sheep`. -/
structure statvfs_t where
  f_frsize : Nat
  f_bfree : Nat
  deriving DecidableEq, Repr

/-- One directory entry as `stat_sheep` sees it: the name returned by
`readdir` and the outcome of `stat` on it (`none` when `stat` fails,
`some st_size` otherwise). -/
structure dirent where
  d_name : String
  st_size : Option Nat
  deriving DecidableEq, Repr

/-- Entry of the node array `e` (`struct sheepdog_node_list_entry`): the 16
address bytes and the port. -/
structure sheepdog_node_list_entry where
  addr : List Nat
  port : Nat
  deriving DecidableEq, Repr

/-- An entry of the array returned by `zalloc`. -/
def zero_entry : sheepdog_node_list_entry := ⟨List.replicate 16 0, 0⟩

/-- The four numbers printed into `name` by
`snprintf(name, sizeof(name), "%d.%d.%d.%d", e[n].addr[12], ..., e[n].addr[15])`. -/
def node_name (ent : sheepdog_node_list_entry) : Nat × Nat × Nat × Nat :=
  (ent.addr.getD 12 0, ent.addr.getD 13 0, ent.addr.getD 14 0, ent.addr.getD 15 0)

/-- The fields of `struct cluster_info` the code reads. -/
structure cluster_info where
  epoch : Nat
  node_list : List sheepdog_node_list_entry
  deriving DecidableEq, Repr

/-- Request header `struct sd_obj_req` (declared in an absent header; the
fields are those `store.c` reads or writes). -/
structure sd_obj_req where
  opcode : Opcode
  oid : Nat
  epoch : Nat
  offset : Nat
  data_length : Nat
  flags : Nat
  copies : Nat
  cow_oid : Nat
  deriving DecidableEq, Repr

/-- Response `req->rp`, read through `struct sd_obj_rsp *rsp` (`result`,
`data_length`, `copies`) and through `struct sd_node_rsp *nrsp` (`store_size`,
`store_free`). -/
structure sd_rsp where
  result : Res
  data_length : Nat
  copies : Nat
  store_size : Nat
  store_free : Nat
  deriving DecidableEq, Repr

/-- Fields of `struct request`: header `rq`, response `rp`, payload buffer `data`. -/
structure request where
  rq : sd_obj_req
  rp : sd_rsp
  data : Bytes
  deriving DecidableEq, Repr

/-- A file of the object directory: its bytes and its `user.sheepdog.copies`
extended attribute (`none` when the attribute is absent). -/
structure File where
  data : Bytes
  copies : Option Nat
  deriving DecidableEq, Repr

/-- Open handles: a descriptor on an object file, the directory stream of
`stat_sheep`, a socket returned by `connect_to`. -/
inductive Handle where
  | file (oid : Nat)
  | dir
  | sock (name : Nat × Nat × Nat × Nat) (port : Nat)
  deriving DecidableEq, Repr

/-- Calls that reach outside the process, in the order they are made. -/
inductive Event where
  | statvfs (ok : Bool)
  | opendir (ok : Bool)
  | open_file (oid : Nat) (creat : Bool) (ok : Bool)
  | ftruncate (oid : Nat) (ok : Bool)
  | fsetxattr (oid : Nat) (copies : Nat) (ok : Bool)
  | fgetxattr (oid : Nat) (ok : Bool)
  | pwrite (oid : Nat) (count : Nat) (offset : Nat) (ret : Int)
  | pread (oid : Nat) (count : Nat) (offset : Nat) (ret : Int)
  | fsync (oid : Nat) (ok : Bool)
  | unlink (oid : Nat) (ok : Bool)
  | close (oid : Nat)
  | build_node_list (nr : Nat)
  | connect_to (name : Nat × Nat × Nat × Nat) (port : Nat) (ok : Bool)
  | exec_req (hdr : sd_obj_req) (ret : Int) (result : Res)
  | close_sock
  | sleep
  deriving DecidableEq, Repr

/-- Process and disk state: the object directory, the open handles, the
scratch slots `zero_block + idx * SD_DATA_OBJ_SIZE`, the trace of calls. -/
structure St where
  files : Nat → Option File
  handles : List Handle
  zero_block : Nat → Bytes
  trace : List Event

/-- What `exec_req` leaves behind: its return value (`0` when the exchange
went through), `rsp->result`, the bytes received into `buf`, and `*rlen`. -/
structure ExecOut where
  ret : Int
  result : Res
  data : Bytes
  rlen : Nat
  deriving DecidableEq, Repr

/-- Outcome of a `pwrite64`: everything written, only the first `n` bytes
written, or an error (`-1`). -/
inductive WriteOut where
  | full
  | short (n : Nat)
  | err
  deriving DecidableEq, Repr

/-- Everything `store.c` takes from outside. Constants and macros of absent
headers (`SD_DATA_OBJ_SIZE`, `SD_MAX_NODES`, `SD_FLAG_CMD_COW`, `is_data_obj`,
`obj_to_sheep`) are parameters. `cluster t` is the shared `cluster_info` at
its `t`-th observation. `connect_to c i` and `exec_req c i` are the outcomes
of the calls made at attempt `i` of round `c` of `read_from_one`. The
remaining fields are the outcomes of the system calls of one request. -/
structure Env where
  SD_DATA_OBJ_SIZE : Nat
  SD_MAX_NODES : Nat
  SD_FLAG_CMD_COW : Nat
  is_data_obj : Nat → Bool
  obj_to_sheep : List sheepdog_node_list_entry → Nat → Nat → Nat → Nat
  cluster : Nat → cluster_info
  connect_to : Nat → Nat → Nat × Nat × Nat × Nat → Nat → Bool
  exec_req : Nat → Nat → sd_obj_req → ExecOut
  statvfs : Option statvfs_t
  opendir : Option (List dirent)
  open_errno : Option Errno
  ftruncate_fails : Bool
  fsetxattr_fails : Bool
  seed_pwrite : WriteOut
  data_pwrite : WriteOut
  fgetxattr_fails : Bool
  pread_fails : Bool
  fsync_errno : Option Errno
  unlink_fails : Bool

/-- Append one call to the trace. -/
def St.log (s : St) (e : Event) : St := { s with trace := s.trace ++ [e] }

/-- Overwrite the beginning of an array with `b`, keeping what follows. -/
def overwrite {α : Type} (b buf : List α) : List α := b ++ buf.drop b.length

/-! ## stat_sheep -/

/-- The `while ((d = readdir(dir)))` loop of `stat_sheep`: `used` is a
`uint64_t`, so each `used += s.st_size` wraps at `2 ^ 64`. -/
def stat_sheep_loop : List dirent → Nat → Nat
  | [], used => used
  | d :: rest, used =>
    if d.d_name = "." ∨ d.d_name = ".." then stat_sheep_loop rest used
    else
      match d.st_size with
      | none => stat_sheep_loop rest used
      | some sz => stat_sheep_loop rest ((used + sz) % 2 ^ 64)

/-- Body of `stat_sheep`, lines 27-62: the result code, the values stored
through `store_size` and `store_free` (`none` when nothing is stored), and the
state. `opendir` adds the directory stream to the open handles; the function
has no `closedir`. The fields of `struct statvfs` are taken as 64-bit unsigned
(`unsigned long`, `fsblkcnt_t`), so their product wraps at `2 ^ 64`, as does
the subtraction of `used`. -/
def stat_sheep (env : Env) (s : St) : Res × Option (Nat × Nat) × St :=
  match env.statvfs with
  | none => (Res.SD_RES_EIO, none, s.log (Event.statvfs false))
  | some vs =>
    let s1 := s.log (Event.statvfs true)
    match env.opendir with
    | none => (Res.SD_RES_EIO, none, s1.log (Event.opendir false))
    | some ents =>
      let s2 : St := { s1 with handles := Handle.dir :: s1.handles,
                               trace := s1.trace ++ [Event.opendir true] }
      let used := stat_sheep_loop ents 0
      let store_size := (vs.f_frsize * vs.f_bfree) % 2 ^ 64
      let store_free := ((vs.f_frsize * vs.f_bfree) % 2 ^ 64 + 2 ^ 64 - used) % 2 ^ 64
      (Res.SD_RES_SUCCESS, some (store_size, store_free), s2)

/-! ## read_from_one -/

/-- State of `read_from_one`: the process state, the caller's buffer `buf`,
`*rlen`, and the node array `e`. -/
structure FetchSt where
  st : St
  buf : Bytes
  rlen : Nat
  e : List sheepdog_node_list_entry

/-- How the `for` loop of `read_from_one` is left: `return 0`, `goto again`,
or `i` reached `nr`. -/
inductive LoopExit where
  | ret0
  | again
  | exhausted
  deriving DecidableEq, Repr

/-- How `read_from_one` is left: a `return` with its value, or still looping
when the rounds allowed to the embedding are used up. -/
inductive FetchExit where
  | ret (v : Int)
  | hung
  deriving DecidableEq, Repr

/-- The header built at lines 89-96. -/
def read_hdr (epoch oid rlen offset : Nat) : sd_obj_req :=
  { opcode := Opcode.SD_OP_READ_OBJ, oid := oid, epoch := epoch, offset := offset,
    data_length := rlen, flags := 0, copies := 0, cow_oid := 0 }

/-- The loop `for (i = 0; i < nr; i++)` of `read_from_one`, lines 78-117, in
round `c`; the first numeric argument counts the iterations left (`nr - i`),
the second is `i`. -/
def read_from_one_loop (env : Env) (cluster : Nat → cluster_info) (c : Nat)
    (nr oid offset : Nat) : Nat → Nat → FetchSt → LoopExit × FetchSt
  | 0, _, s => (LoopExit.exhausted, s)
  | k + 1, i, s =>
    let n := env.obj_to_sheep s.e nr oid i
    let ent := s.e.getD n zero_entry
    if env.connect_to c i (node_name ent) ent.port then
      let hdr := read_hdr (cluster c).epoch oid s.rlen offset
      let r := env.exec_req c i hdr
      let h := Handle.sock (node_name ent) ent.port
      let s1 : FetchSt :=
        { s with
          st := { s.st with
                  handles := (h :: s.st.handles).erase h,
                  trace := s.st.trace ++ [Event.connect_to (node_name ent) ent.port true,
                                          Event.exec_req hdr r.ret r.result,
                                          Event.close_sock] },
          buf := overwrite r.data s.buf,
          rlen := r.rlen }
      if r.ret ≠ 0 then read_from_one_loop env cluster c nr oid offset k (i + 1) s1
      else
        match r.result with
        | Res.SD_RES_SUCCESS => (LoopExit.ret0, s1)
        | Res.SD_RES_OLD_NODE_VER => (LoopExit.again, { s1 with st := s1.st.log Event.sleep })
        | Res.SD_RES_NEW_NODE_VER => (LoopExit.again, { s1 with st := s1.st.log Event.sleep })
        | _ => read_from_one_loop env cluster c nr oid offset k (i + 1) s1
    else
      read_from_one_loop env cluster c nr oid offset k (i + 1)
        { s with st := s.st.log (Event.connect_to (node_name ent) ent.port false) }

/-- The rounds of `read_from_one` from the label `again:` on: round `c` calls
`build_node_list`, which stores the `nr` entries of the current node list at
the start of `e`, and runs the loop. -/
def read_from_one_rounds (env : Env) (cluster : Nat → cluster_info) (oid offset : Nat) :
    Nat → Nat → FetchSt → FetchExit × FetchSt
  | 0, _, s => (FetchExit.hung, s)
  | fuel + 1, c, s =>
    let l := (cluster c).node_list
    let nr := l.length
    let s0 : FetchSt := { s with e := overwrite l s.e, st := s.st.log (Event.build_node_list nr) }
    match read_from_one_loop env cluster c nr oid offset nr 0 s0 with
    | (LoopExit.ret0, s1) => (FetchExit.ret 0, s1)
    | (LoopExit.exhausted, s1) => (FetchExit.ret (-1), s1)
    | (LoopExit.again, s1) => read_from_one_rounds env cluster oid offset fuel (c + 1) s1

/-- Function `read_from_one`, lines 64-120, allowed `fuel` rounds. -/
def read_from_one (env : Env) (cluster : Nat → cluster_info) (fuel : Nat) (st : St)
    (oid rlen : Nat) (buf : Bytes) (offset : Nat) : FetchExit × FetchSt :=
  read_from_one_rounds env cluster oid offset fuel 0
    { st := st, buf := buf, rlen := rlen, e := List.replicate env.SD_MAX_NODES zero_entry }

/-- Function `read_from_other_sheeps`, lines 122-133. -/
def read_from_other_sheeps (env : Env) (cluster : Nat → cluster_info) (fuel : Nat) (st : St)
    (oid : Nat) (buf : Bytes) (_copies : Nat) : FetchExit × FetchSt :=
  read_from_one env cluster fuel st oid env.SD_DATA_OBJ_SIZE buf 0

/-! ## store_queue_request -/

/-- Modelled from the spec: the macro `before(req_epoch, epoch)` is declared
in an absent header; section 4.1 of the specification reads it as
`req_epoch < epoch` (the request is stale). -/
def before (req_epoch epoch : Nat) : Bool := decide (req_epoch < epoch)

/-- Modelled from the spec: the macro `after(req_epoch, epoch)` is declared
in an absent header; section 4.1 of the specification reads it as
`req_epoch > epoch` (the request is premature). -/
def after (req_epoch epoch : Nat) : Bool := decide (req_epoch > epoch)

/-- Number of bytes a `pwrite64` of `count` bytes transfers (`none`: error). -/
def written (o : WriteOut) (count : Nat) : Option Nat :=
  match o with
  | WriteOut.full => some count
  | WriteOut.short n => some (min n count)
  | WriteOut.err => none

/-- Return value of a `pwrite64` of `count` bytes. -/
def pwrite_ret (o : WriteOut) (count : Nat) : Int :=
  match written o count with
  | some n => (n : Int)
  | none => -1

/-- File contents after writing the bytes `b` at offset `off`: a gap between
the end of the file and `off` reads as zeros, and writing nothing leaves the
file as it is. -/
def write_at (data : Bytes) (off : Nat) (b : Bytes) : Bytes :=
  if b = [] then data
  else data.take off ++ List.replicate (off - data.length) 0 ++ b ++ data.drop (off + b.length)

/-- Effect of `pwrite64(fd, buf, count, off)` on the file. -/
def pwrite (f : File) (buf : Bytes) (count off : Nat) (o : WriteOut) : File :=
  match written o count with
  | some n => { f with data := write_at f.data off (buf.take n) }
  | none => f

/-- Bytes a `pread64(fd, _, count, off)` transfers. -/
def pread (f : File) (count off : Nat) : Bytes := (f.data.drop off).take count

/-- The file behind the descriptor opened on `oid`. A descriptor is in use
only after `open` succeeded, so the file exists. -/
def file_of (s : St) (oid : Nat) : File := (s.files oid).getD ⟨[], none⟩

/-- What a call of `store_queue_request` leaves: whether it returned, the
final value of the local `ret`, the request (response and payload buffer),
and the state. -/
structure Outcome where
  returned : Bool
  ret : Res
  req : request
  st : St

/-- The label `out:`, lines 298-308: `rsp->result` is stored only for a
non-success `ret`; `fd` is closed when it is not `-1`. -/
def out_label (s : St) (req : request) (ret : Res) (fd : Option Nat) : Outcome :=
  let rp := if ret ≠ Res.SD_RES_SUCCESS then { req.rp with result := ret } else req.rp
  let s1 : St :=
    match fd with
    | none => s
    | some oid => { s with handles := s.handles.erase (Handle.file oid),
                           trace := s.trace ++ [Event.close oid] }
  { returned := true, ret := ret, req := { req with rp := rp }, st := s1 }

/-- The call `open(path, flags, ...)` of line 187: `env.open_errno` is an
error the system reports on its own account; otherwise the call succeeds on an
existing file, creates an empty file without attribute under `O_CREAT`, and
fails with `ENOENT` on a missing file without `O_CREAT`. -/
def sys_open (env : Env) (s : St) (oid : Nat) (creat : Bool) : Option Errno × St :=
  match env.open_errno with
  | some e => (some e, s.log (Event.open_file oid creat false))
  | none =>
    match s.files oid with
    | some _ =>
      (none, { s with handles := Handle.file oid :: s.handles,
                      trace := s.trace ++ [Event.open_file oid creat true] })
    | none =>
      if creat then
        (none, { s with files := Function.update s.files oid (some ⟨[], none⟩),
                        handles := Handle.file oid :: s.handles,
                        trace := s.trace ++ [Event.open_file oid creat true] })
      else (some Errno.ENOENT, s.log (Event.open_file oid creat false))

/-- The second `switch (opcode)`, lines 249-297, followed by `out:`. `ret` is
the value of the local on entry; it is kept by the opcodes without a case. -/
def second_switch (env : Env) (s : St) (req : request) (ret : Res) (fd : Option Nat) :
    Outcome :=
  let hdr := req.rq
  match hdr.opcode with
  | Opcode.SD_OP_REMOVE_OBJ =>
    match s.files hdr.oid with
    | none => out_label (s.log (Event.unlink hdr.oid false)) req Res.one fd
    | some _ =>
      if env.unlink_fails then out_label (s.log (Event.unlink hdr.oid false)) req Res.one fd
      else
        out_label { s with files := Function.update s.files hdr.oid none,
                           trace := s.trace ++ [Event.unlink hdr.oid true] }
          req Res.SD_RES_SUCCESS fd
  | Opcode.SD_OP_READ_OBJ =>
    let f := file_of s hdr.oid
    if env.fgetxattr_fails then
      out_label (s.log (Event.fgetxattr hdr.oid false)) req Res.SD_RES_SYSTEM_ERROR fd
    else
      match f.copies with
      | none => out_label (s.log (Event.fgetxattr hdr.oid false)) req Res.SD_RES_SYSTEM_ERROR fd
      | some copies =>
        let s1 := s.log (Event.fgetxattr hdr.oid true)
        if env.pread_fails then
          out_label (s1.log (Event.pread hdr.oid hdr.data_length hdr.offset (-1)))
            req Res.SD_RES_EIO fd
        else
          let b := pread f hdr.data_length hdr.offset
          out_label (s1.log (Event.pread hdr.oid hdr.data_length hdr.offset b.length))
            { req with data := overwrite b req.data,
                       rp := { req.rp with data_length := b.length, copies := copies } }
            Res.SD_RES_SUCCESS fd
  | Opcode.SD_OP_CREATE_AND_WRITE_OBJ =>
    let r := pwrite_ret env.data_pwrite hdr.data_length
    let s1 : St :=
      { s with files := Function.update s.files hdr.oid
                 (some (pwrite (file_of s hdr.oid) req.data hdr.data_length hdr.offset
                   env.data_pwrite)),
               trace := s.trace ++ [Event.pwrite hdr.oid hdr.data_length hdr.offset r] }
    if r ≠ (hdr.data_length : Int) then out_label s1 req Res.SD_RES_EIO fd
    else out_label s1 req Res.SD_RES_SUCCESS fd
  | Opcode.SD_OP_WRITE_OBJ =>
    let r := pwrite_ret env.data_pwrite hdr.data_length
    let s1 : St :=
      { s with files := Function.update s.files hdr.oid
                 (some (pwrite (file_of s hdr.oid) req.data hdr.data_length hdr.offset
                   env.data_pwrite)),
               trace := s.trace ++ [Event.pwrite hdr.oid hdr.data_length hdr.offset r] }
    if r ≠ (hdr.data_length : Int) then out_label s1 req Res.SD_RES_EIO fd
    else out_label s1 req Res.SD_RES_SUCCESS fd
  | Opcode.SD_OP_SYNC_OBJ =>
    match env.fsync_errno with
    | none => out_label (s.log (Event.fsync hdr.oid true)) req Res.SD_RES_SUCCESS fd
    | some Errno.EIO => out_label (s.log (Event.fsync hdr.oid false)) req Res.SD_RES_EIO fd
    | some _ => out_label (s.log (Event.fsync hdr.oid false)) req Res.SD_RES_UNKNOWN fd
  | Opcode.SD_OP_STAT_SHEEP =>
    match stat_sheep env s with
    | (r, none, s1) => out_label s1 req r fd
    | (r, some (sz, fr), s1) =>
      out_label s1 { req with rp := { req.rp with store_size := sz, store_free := fr } } r fd
  | _ => out_label s req ret fd

/-- The seeding write of lines 240-244 and what follows it. After a complete
write the local `ret` holds `SD_DATA_OBJ_SIZE`; the case
`SD_OP_CREATE_AND_WRITE_OBJ` of the second switch assigns it before reading
it, so the value handed on is immaterial. -/
def seed_write (env : Env) (s : St) (req : request) (idx : Nat) (fd : Option Nat) : Outcome :=
  let oid := req.rq.oid
  let buf := s.zero_block idx
  let r := pwrite_ret env.seed_pwrite env.SD_DATA_OBJ_SIZE
  let s1 : St :=
    { s with files := Function.update s.files oid
               (some (pwrite (file_of s oid) buf env.SD_DATA_OBJ_SIZE 0 env.seed_pwrite)),
             trace := s.trace ++ [Event.pwrite oid env.SD_DATA_OBJ_SIZE 0 r] }
  if r ≠ (env.SD_DATA_OBJ_SIZE : Int) then out_label s1 req Res.SD_RES_EIO fd
  else second_switch env s1 req Res.SD_RES_SUCCESS fd

/-- Lines 200-244, the part of the first switch that only
`SD_OP_CREATE_AND_WRITE_OBJ` runs, and what follows it. The peer fetch
observes the shared `cluster_info` after the request did. -/
def create_path (env : Env) (fuel : Nat) (s : St) (req : request) (idx : Nat)
    (fd : Option Nat) : Outcome :=
  let hdr := req.rq
  let oid := hdr.oid
  if hdr.copies = 0 then out_label s req Res.SD_RES_INVALID_PARMS fd
  else if env.ftruncate_fails then
    out_label (s.log (Event.ftruncate oid false)) req Res.SD_RES_EIO fd
  else
    let s2 : St :=
      { s with files := Function.update s.files oid (some { file_of s oid with data := [] }),
               trace := s.trace ++ [Event.ftruncate oid true] }
    if env.fsetxattr_fails then
      out_label (s2.log (Event.fsetxattr oid hdr.copies false)) req Res.SD_RES_SYSTEM_ERROR fd
    else
      let s3 : St :=
        { s2 with files := Function.update s2.files oid
                    (some { file_of s2 oid with copies := some hdr.copies }),
                  trace := s2.trace ++ [Event.fsetxattr oid hdr.copies true] }
      if ¬ env.is_data_obj oid then second_switch env s3 req Res.SD_RES_SUCCESS fd
      else if hdr.flags &&& env.SD_FLAG_CMD_COW ≠ 0 then
        match read_from_other_sheeps env (fun c => env.cluster (c + 1)) fuel s3 hdr.cow_oid
                (s3.zero_block idx) hdr.copies with
        | (FetchExit.hung, fs) =>
          { returned := false, ret := Res.SD_RES_SUCCESS, req := req,
            st := { fs.st with zero_block := Function.update fs.st.zero_block idx fs.buf } }
        | (FetchExit.ret v, fs) =>
          let s4 : St := { fs.st with zero_block := Function.update fs.st.zero_block idx fs.buf }
          if v ≠ 0 then out_label s4 req Res.one fd
          else seed_write env s4 req idx fd
      else
        let s4 : St :=
          { s3 with zero_block := Function.update s3.zero_block idx
                      (overwrite (List.replicate env.SD_DATA_OBJ_SIZE 0) (s3.zero_block idx)) }
        seed_write env s4 req idx fd

/-- Lines 179-297: the first switch (open, then the creation steps) and the
second switch. -/
def dispatch (env : Env) (fuel : Nat) (s : St) (req : request) (idx : Nat) : Outcome :=
  let hdr := req.rq
  if hdr.opcode = Opcode.SD_OP_CREATE_AND_WRITE_OBJ ∨ hdr.opcode = Opcode.SD_OP_WRITE_OBJ ∨
      hdr.opcode = Opcode.SD_OP_READ_OBJ ∨ hdr.opcode = Opcode.SD_OP_SYNC_OBJ then
    match sys_open env s hdr.oid (decide (hdr.opcode = Opcode.SD_OP_CREATE_AND_WRITE_OBJ)) with
    | (some e, s1) =>
      out_label s1 req (if e = Errno.ENOENT then Res.SD_RES_NO_OBJ else Res.SD_RES_UNKNOWN) none
    | (none, s1) =>
      if hdr.opcode ≠ Opcode.SD_OP_CREATE_AND_WRITE_OBJ then
        second_switch env s1 req Res.SD_RES_SUCCESS (some hdr.oid)
      else create_path env fuel s1 req idx (some hdr.oid)
  else second_switch env s req Res.SD_RES_SUCCESS none

/-- Function `store_queue_request`, lines 135-308, on the worker slot `idx`.
The trace of the outcome holds the calls of this request only. -/
def store_queue_request (env : Env) (fuel : Nat) (w : St) (req : request) (idx : Nat) :
    Outcome :=
  let hdr := req.rq
  let cluster := env.cluster 0
  let s : St := { w with trace := [] }
  if cluster.node_list.isEmpty then out_label s req Res.SD_RES_SYSTEM_ERROR none
  else if hdr.opcode ≠ Opcode.SD_OP_GET_NODE_LIST then
    if before hdr.epoch cluster.epoch then out_label s req Res.SD_RES_OLD_NODE_VER none
    else if after hdr.epoch cluster.epoch then out_label s req Res.SD_RES_NEW_NODE_VER none
    else dispatch env fuel s req idx
  else dispatch env fuel s req idx

/-! ## Concrete inputs used by the examples -/

/-- An empty store: no file, no open handle, empty scratch slots. -/
def st_empty : St :=
  { files := fun _ => none, handles := [], zero_block := fun _ => [], trace := [] }

/-- Three node entries, 10.0.0.1 to 10.0.0.3, port 7000. -/
def node_1 : sheepdog_node_list_entry := ⟨List.replicate 12 0 ++ [10, 0, 0, 1], 7000⟩
/-- Second node entry. -/
def node_2 : sheepdog_node_list_entry := ⟨List.replicate 12 0 ++ [10, 0, 0, 2], 7000⟩
/-- Third node entry. -/
def node_3 : sheepdog_node_list_entry := ⟨List.replicate 12 0 ++ [10, 0, 0, 3], 7000⟩

/-- An environment in which nothing fails: three nodes at epoch 5, objects of
4 bytes, every peer reachable and answering `SD_RES_SUCCESS` with the bytes
`[1, 2, 3, 4]`, a file system with 1000 free fragments of 4096 bytes. -/
def env_ok : Env :=
  { SD_DATA_OBJ_SIZE := 4
    SD_MAX_NODES := 8
    SD_FLAG_CMD_COW := 2
    is_data_obj := fun _ => true
    obj_to_sheep := fun _ nr oid i => (oid + i) % nr
    cluster := fun _ => ⟨5, [node_1, node_2, node_3]⟩
    connect_to := fun _ _ _ _ => true
    exec_req := fun _ _ _ => ⟨0, Res.SD_RES_SUCCESS, [1, 2, 3, 4], 4⟩
    statvfs := some ⟨4096, 1000⟩
    opendir := some [⟨".", some 4096⟩, ⟨"..", some 4096⟩, ⟨"a", some 100⟩, ⟨"b", none⟩,
                     ⟨"c", some 23⟩]
    open_errno := none
    ftruncate_fails := false
    fsetxattr_fails := false
    seed_pwrite := WriteOut.full
    data_pwrite := WriteOut.full
    fgetxattr_fails := false
    pread_fails := false
    fsync_errno := none
    unlink_fails := false }

/-- A response as a caller hands it in. -/
def rsp_zero : sd_rsp :=
  { result := Res.SD_RES_SUCCESS, data_length := 0, copies := 0, store_size := 0, store_free := 0 }

/-- A request with the given opcode, object id, epoch and replica count; no
flags, offset 1, payload `[7, 8]`. -/
def mk_req (op : Opcode) (oid epoch copies : Nat) : request :=
  { rq := { opcode := op, oid := oid, epoch := epoch, offset := 1, data_length := 2,
            flags := 0, copies := copies, cow_oid := 0 },
    rp := rsp_zero, data := [7, 8] }

/-- Directory usage as the specification words it: the sum of the sizes of the
entries other than `.` and `..` on which `stat` succeeds. -/
def dir_usage : List dirent → Nat
  | [] => 0
  | d :: rest =>
    if d.d_name = "." ∨ d.d_name = ".." then dir_usage rest
    else
      match d.st_size with
      | none => dir_usage rest
      | some sz => sz + dir_usage rest

/-- An environment whose file system reports 2^32 free fragments of 2^32
bytes and an empty object directory. -/
def env_big : Env := { env_ok with statvfs := some ⟨2 ^ 32, 2 ^ 32⟩, opendir := some [] }


/-- The environment `env_ok` before the node list has arrived. -/
def env_nolist : Env := { env_ok with cluster := fun _ => ⟨5, []⟩ }

/-! ## Vocabulary of the statements about the peer fetch -/

/-- The entry `e[n]` with `n = obj_to_sheep(e, nr, oid, i)`: the candidate of
attempt `i` in placement order. -/
def candidate (env : Env) (e : List sheepdog_node_list_entry) (nr oid i : Nat) :
    sheepdog_node_list_entry :=
  e.getD (env.obj_to_sheep e nr oid i) zero_entry

/-- The node array after the first `build_node_list` of `read_from_one`. -/
def first_array (env : Env) (cluster : Nat → cluster_info) : List sheepdog_node_list_entry :=
  overwrite (cluster 0).node_list (List.replicate env.SD_MAX_NODES zero_entry)

/-- The node array after the second `build_node_list` of `read_from_one`. -/
def second_array (env : Env) (cluster : Nat → cluster_info) : List sheepdog_node_list_entry :=
  overwrite (cluster 1).node_list (first_array env cluster)

/-- A skip: a `connect_to` that failed, after which the loop goes on to the
next candidate. -/
def Event.is_skip : Event → Bool
  | Event.connect_to _ _ false => true
  | _ => false

/-- A connection attempt, failed or not. -/
def Event.is_attempt : Event → Bool
  | Event.connect_to _ _ _ => true
  | _ => false

/-- A backoff: the `sleep(2)` before `goto again`. -/
def Event.is_backoff : Event → Bool
  | Event.sleep => true
  | _ => false

/-- A read of the node list by `build_node_list`. -/
def Event.is_refresh : Event → Bool
  | Event.build_node_list _ => true
  | _ => false

/-- Number of skips in a trace. -/
def skips (t : List Event) : Nat := t.countP Event.is_skip

/-- Number of connection attempts in a trace. -/
def attempts (t : List Event) : Nat := t.countP Event.is_attempt

/-- Number of backoffs in a trace. -/
def backoffs (t : List Event) : Nat := t.countP Event.is_backoff

/-- Number of reads of the node list in a trace. -/
def refreshes (t : List Event) : Nat := t.countP Event.is_refresh

/-- The failed connection attempts `0 .. k-1` of a round, as they appear in
the trace. -/
def skip_events (env : Env) (e : List sheepdog_node_list_entry) (nr oid : Nat) (k : Nat) :
    List Event :=
  (List.range k).map fun i =>
    Event.connect_to (node_name (candidate env e nr oid i)) (candidate env e nr oid i).port false

/-- The environment `env_ok` with the candidates of attempts 0 and 1
unreachable. -/
def env_two_down : Env := { env_ok with connect_to := fun _ i _ _ => decide (2 ≤ i) }

/-- The environment `env_ok` with a first round in which the candidate of
attempt 0 is unreachable and the candidate of attempt 1 answers
`SD_RES_OLD_NODE_VER`, and later rounds in which every peer answers
`SD_RES_SUCCESS`; the node list loses its first node after the first round. -/
def env_stale : Env :=
  { env_ok with
    cluster := fun c => if c = 0 then ⟨5, [node_1, node_2, node_3]⟩ else ⟨6, [node_2, node_3]⟩
    connect_to := fun c i _ _ => decide (c ≠ 0 ∨ i ≠ 0)
    exec_req := fun c _ _ =>
      if c = 0 then ⟨0, Res.SD_RES_OLD_NODE_VER, [], 0⟩
      else ⟨0, Res.SD_RES_SUCCESS, [1, 2, 3, 4], 4⟩ }

/-- The calls of the peer fetch: reading the node list, connecting,
exchanging, closing the socket, sleeping. -/
def Event.is_net : Event → Bool
  | Event.build_node_list _ => true
  | Event.connect_to _ _ _ => true
  | Event.exec_req _ _ _ => true
  | Event.close_sock => true
  | Event.sleep => true
  | _ => false

/-! ## Vocabulary of the statements about object creation -/

/-- The calls that must come after the replica-count attribute has been set:
a write of payload bytes into the object file and every call of the peer
fetch. -/
def Event.needs_attr : Event → Bool
  | Event.pwrite _ _ _ _ => true
  | e => e.is_net

/-- Scan of a trace in the order of the calls; the flag tells whether
`fsetxattr` has succeeded so far. The scan succeeds when no call that needs
the attribute is met while the flag is down. -/
def attr_first : Bool → List Event → Bool
  | _, [] => true
  | set, e :: t =>
    match e with
    | Event.fsetxattr _ _ true => attr_first true t
    | _ => (!e.needs_attr || set) && attr_first set t

/-- A create-and-write of object 9 with three replicas, copy-on-write from
object 4. -/
def req_cow : request :=
  { rq := { opcode := Opcode.SD_OP_CREATE_AND_WRITE_OBJ, oid := 9, epoch := 5, offset := 1,
            data_length := 2, flags := 2, copies := 3, cow_oid := 4 },
    rp := rsp_zero, data := [7, 8] }

/-- The environment `env_ok` with every peer unreachable. -/
def env_unreachable : Env := { env_ok with connect_to := fun _ _ _ _ => false }

theorem stat_sheep_loop_eq (ents : List dirent) :
    ∀ u : Nat, stat_sheep_loop ents (u % 2 ^ 64) = (u + dir_usage ents) % 2 ^ 64 := by
  induction ents with
  | nil => intro u; simp [stat_sheep_loop, dir_usage]
  | cons d rest ih =>
    intro u
    by_cases hd : d.d_name = "." ∨ d.d_name = ".."
    · simp only [stat_sheep_loop, dir_usage, if_pos hd]; exact ih u
    · cases hs : d.st_size with
      | none => simp only [stat_sheep_loop, dir_usage, if_neg hd, hs]; exact ih u
      | some sz =>
        simp only [stat_sheep_loop, dir_usage, if_neg hd, hs]
        rw [ih (u % 2 ^ 64 + sz)]
        omega

theorem stat_sheep_loop_zero (ents : List dirent) :
    stat_sheep_loop ents 0 = dir_usage ents % 2 ^ 64 := by
  have h := stat_sheep_loop_eq ents 0
  simpa using h

/-- C9, as stated, fails: with 2^32 free fragments of 2^32 bytes the free
space F is 2^64 bytes, and `stat_sheep` reports total = 0, not F. -/
theorem stat_sheep_total_wraps :
    (stat_sheep env_big st_empty).1 = Res.SD_RES_SUCCESS ∧
    (stat_sheep env_big st_empty).2.1 = some (0, 0) ∧
    (2 ^ 32 * 2 ^ 32 : Nat) ≠ 0 := by
  refine ⟨rfl, ?_, by decide⟩
  simp [stat_sheep, env_big, env_ok, stat_sheep_loop]

/-- C9 (amended): when `statvfs` and `opendir` succeed, with F = fragment size
times free fragment count and U = the summed sizes of the entries other than
`.` and `..` on which `stat` succeeds, `stat_sheep` succeeds with
total = F mod 2^64 and free = (F mod 2^64 - U mod 2^64) mod 2^64; so
total = F and free = F - U exactly whenever F < 2^64 and U <= F; a failing
`statvfs` or `opendir` gives `SD_RES_EIO` and stores nothing. -/
theorem stat_sheep_report (env : Env) (s : St) :
    (∀ vs ents, env.statvfs = some vs → env.opendir = some ents →
      (stat_sheep env s).1 = Res.SD_RES_SUCCESS ∧
      (stat_sheep env s).2.1 =
        some ((vs.f_frsize * vs.f_bfree) % 2 ^ 64,
              ((vs.f_frsize * vs.f_bfree) % 2 ^ 64 + 2 ^ 64 - dir_usage ents % 2 ^ 64) % 2 ^ 64) ∧
      (vs.f_frsize * vs.f_bfree < 2 ^ 64 → dir_usage ents ≤ vs.f_frsize * vs.f_bfree →
        (stat_sheep env s).2.1 =
          some (vs.f_frsize * vs.f_bfree, vs.f_frsize * vs.f_bfree - dir_usage ents))) ∧
    (env.statvfs = none ∨ env.opendir = none →
      (stat_sheep env s).1 = Res.SD_RES_EIO ∧ (stat_sheep env s).2.1 = none) := by
  constructor
  · intro vs ents hv hd
    have h2 : (stat_sheep env s).2.1 =
        some ((vs.f_frsize * vs.f_bfree) % 2 ^ 64,
              ((vs.f_frsize * vs.f_bfree) % 2 ^ 64 + 2 ^ 64 - dir_usage ents % 2 ^ 64) % 2 ^ 64) := by
      simp only [stat_sheep, hv, hd, stat_sheep_loop_zero]
    refine ⟨by simp only [stat_sheep, hv, hd], h2, ?_⟩
    intro hF hU
    rw [h2]
    have e1 : vs.f_frsize * vs.f_bfree % 2 ^ 64 = vs.f_frsize * vs.f_bfree := Nat.mod_eq_of_lt hF
    have e2 : dir_usage ents % 2 ^ 64 = dir_usage ents := Nat.mod_eq_of_lt (by omega)
    rw [e1, e2]
    congr 2
    omega
  · intro h
    rcases h with h | h
    · simp only [stat_sheep, h, and_self]
    · cases hv : env.statvfs <;> simp only [stat_sheep, h, hv, and_self]

/-- The amended C9 at a concrete report: 1000 free fragments of 4096 bytes and
123 bytes of objects give total 4096000 and free 4095877. -/
theorem stat_sheep_report_witness :
    (stat_sheep env_ok st_empty).2.1 = some (4096000, 4095877) := by
  have h := (stat_sheep_report env_ok st_empty).1 ⟨4096, 1000⟩ _ rfl rfl
  have h3 := h.2.2 (by decide) (by decide)
  simpa [dir_usage] using h3

/-! ## Epoch fence -/

/-- C1: for a request whose opcode is not `SD_OP_GET_NODE_LIST`, an empty node
list gives `SD_RES_SYSTEM_ERROR` whatever the epochs are; with a non-empty
list, a request epoch below the node epoch gives `SD_RES_OLD_NODE_VER`, one
above it gives `SD_RES_NEW_NODE_VER` (the store is untouched in the three
cases), and with equal epochs the request is handed to the opcode dispatch. -/
theorem epoch_fence (env : Env) (fuel : Nat) (w : St) (req : request) (idx : Nat)
    (hop : req.rq.opcode ≠ Opcode.SD_OP_GET_NODE_LIST) :
    ((env.cluster 0).node_list = [] →
      (store_queue_request env fuel w req idx).returned = true ∧
      (store_queue_request env fuel w req idx).ret = Res.SD_RES_SYSTEM_ERROR ∧
      (store_queue_request env fuel w req idx).req.rp.result = Res.SD_RES_SYSTEM_ERROR ∧
      (store_queue_request env fuel w req idx).st.files = w.files) ∧
    ((env.cluster 0).node_list ≠ [] →
      (req.rq.epoch < (env.cluster 0).epoch →
        (store_queue_request env fuel w req idx).returned = true ∧
        (store_queue_request env fuel w req idx).ret = Res.SD_RES_OLD_NODE_VER ∧
        (store_queue_request env fuel w req idx).req.rp.result = Res.SD_RES_OLD_NODE_VER ∧
        (store_queue_request env fuel w req idx).st.files = w.files) ∧
      ((env.cluster 0).epoch < req.rq.epoch →
        (store_queue_request env fuel w req idx).returned = true ∧
        (store_queue_request env fuel w req idx).ret = Res.SD_RES_NEW_NODE_VER ∧
        (store_queue_request env fuel w req idx).req.rp.result = Res.SD_RES_NEW_NODE_VER ∧
        (store_queue_request env fuel w req idx).st.files = w.files) ∧
      (req.rq.epoch = (env.cluster 0).epoch →
        store_queue_request env fuel w req idx =
          dispatch env fuel { w with trace := [] } req idx)) := by
  refine ⟨?_, ?_⟩
  · intro hl
    simp [store_queue_request, hl, out_label]
  · intro hl
    have hne : (env.cluster 0).node_list.isEmpty = false := by
      cases h : (env.cluster 0).node_list with
      | nil => exact absurd h hl
      | cons a l => rfl
    refine ⟨?_, ?_, ?_⟩
    · intro hlt
      simp [store_queue_request, hne, hop, before, hlt, out_label]
    · intro hgt
      have h1 : ¬ req.rq.epoch < (env.cluster 0).epoch := by omega
      simp [store_queue_request, hne, hop, before, after, hgt, h1, out_label]
    · intro heq
      simp [store_queue_request, hne, hop, before, after, heq]

/-- C1 at concrete requests: a read at epoch 4, 6 and 5 against a node at
epoch 5, and a read while the node list is empty. -/
theorem epoch_fence_witness :
    (store_queue_request env_ok 1 st_empty (mk_req Opcode.SD_OP_READ_OBJ 9 4 0) 0).ret
      = Res.SD_RES_OLD_NODE_VER ∧
    (store_queue_request env_ok 1 st_empty (mk_req Opcode.SD_OP_READ_OBJ 9 6 0) 0).ret
      = Res.SD_RES_NEW_NODE_VER ∧
    store_queue_request env_ok 1 st_empty (mk_req Opcode.SD_OP_READ_OBJ 9 5 0) 0
      = dispatch env_ok 1 { st_empty with trace := [] } (mk_req Opcode.SD_OP_READ_OBJ 9 5 0) 0 ∧
    (store_queue_request env_nolist 1 st_empty (mk_req Opcode.SD_OP_READ_OBJ 9 6 0) 0).ret
      = Res.SD_RES_SYSTEM_ERROR :=
  ⟨((epoch_fence env_ok 1 st_empty (mk_req Opcode.SD_OP_READ_OBJ 9 4 0) 0 (by decide)).2
      (by decide)).1 (by decide) |>.2.1,
   ((epoch_fence env_ok 1 st_empty (mk_req Opcode.SD_OP_READ_OBJ 9 6 0) 0 (by decide)).2
      (by decide)).2.1 (by decide) |>.2.1,
   ((epoch_fence env_ok 1 st_empty (mk_req Opcode.SD_OP_READ_OBJ 9 5 0) 0 (by decide)).2
      (by decide)).2.2 rfl,
   ((epoch_fence env_nolist 1 st_empty (mk_req Opcode.SD_OP_READ_OBJ 9 6 0) 0 (by decide)).1
      rfl).2.1⟩

/-- C2, as stated, fails: while the node list is empty a request with opcode
`SD_OP_GET_NODE_LIST` is rejected with `SD_RES_SYSTEM_ERROR`. -/
theorem get_node_list_rejected_on_empty_list :
    (env_nolist.cluster 0).node_list = [] ∧
    (store_queue_request env_nolist 1 st_empty (mk_req Opcode.SD_OP_GET_NODE_LIST 0 5 0) 0).ret
      = Res.SD_RES_SYSTEM_ERROR ∧
    (store_queue_request env_nolist 1 st_empty
      (mk_req Opcode.SD_OP_GET_NODE_LIST 0 5 0) 0).req.rp.result = Res.SD_RES_SYSTEM_ERROR := by
  refine ⟨rfl, rfl, rfl⟩

/-- C2 (amended): with a non-empty node list, a request with opcode
`SD_OP_GET_NODE_LIST` is never rejected, whatever the request epoch and the
node epoch are: the call returns with `SD_RES_SUCCESS`, the response and the
store are left as they were; with an empty node list it is rejected with
`SD_RES_SYSTEM_ERROR` like every other request. -/
theorem get_node_list_bypasses_epoch_check (env : Env) (fuel : Nat) (w : St) (req : request)
    (idx : Nat) (hop : req.rq.opcode = Opcode.SD_OP_GET_NODE_LIST) :
    ((env.cluster 0).node_list ≠ [] →
      (store_queue_request env fuel w req idx).returned = true ∧
      (store_queue_request env fuel w req idx).ret = Res.SD_RES_SUCCESS ∧
      (store_queue_request env fuel w req idx).req = req ∧
      (store_queue_request env fuel w req idx).st = { w with trace := [] }) ∧
    ((env.cluster 0).node_list = [] →
      (store_queue_request env fuel w req idx).ret = Res.SD_RES_SYSTEM_ERROR ∧
      (store_queue_request env fuel w req idx).req.rp.result = Res.SD_RES_SYSTEM_ERROR) := by
  refine ⟨?_, ?_⟩
  · intro hl
    have hne : (env.cluster 0).node_list.isEmpty = false := by
      cases h : (env.cluster 0).node_list with
      | nil => exact absurd h hl
      | cons a l => rfl
    simp [store_queue_request, hne, hop, dispatch, second_switch, out_label]
  · intro hl
    simp [store_queue_request, hl, out_label]

/-- The amended C2 at a request of epoch 7 against a node at epoch 5, with
three nodes and with none. -/
theorem get_node_list_bypasses_epoch_check_witness :
    (store_queue_request env_ok 1 st_empty (mk_req Opcode.SD_OP_GET_NODE_LIST 0 7 0) 0).ret
      = Res.SD_RES_SUCCESS ∧
    (store_queue_request env_nolist 1 st_empty (mk_req Opcode.SD_OP_GET_NODE_LIST 0 7 0) 0).ret
      = Res.SD_RES_SYSTEM_ERROR :=
  ⟨((get_node_list_bypasses_epoch_check env_ok 1 st_empty
      (mk_req Opcode.SD_OP_GET_NODE_LIST 0 7 0) 0 rfl).1 (by decide)).2.1,
   ((get_node_list_bypasses_epoch_check env_nolist 1 st_empty
      (mk_req Opcode.SD_OP_GET_NODE_LIST 0 7 0) 0 rfl).2 rfl).1⟩

/-! ## Handles -/

/-- C10 fails on the code: a capacity query (`SD_OP_STAT_SHEEP`) that passes
the fence returns with `SD_RES_SUCCESS` and leaves the directory stream opened
by `stat_sheep` in the table of open handles, which was empty before. -/
theorem stat_request_leaves_directory_open :
    st_empty.handles = [] ∧
    (store_queue_request env_ok 1 st_empty (mk_req Opcode.SD_OP_STAT_SHEEP 0 5 0) 0).returned
      = true ∧
    (store_queue_request env_ok 1 st_empty (mk_req Opcode.SD_OP_STAT_SHEEP 0 5 0) 0).ret
      = Res.SD_RES_SUCCESS ∧
    (store_queue_request env_ok 1 st_empty (mk_req Opcode.SD_OP_STAT_SHEEP 0 5 0) 0).st.handles
      = [Handle.dir] ∧
    (store_queue_request env_ok 1 st_empty (mk_req Opcode.SD_OP_STAT_SHEEP 0 5 0) 0).st.trace
      = [Event.statvfs true, Event.opendir true] := by
  refine ⟨rfl, rfl, rfl, rfl, rfl⟩

/-! ## Creation with a zero replica count -/

/-- C3, as stated, fails: a create-and-write with replica count 0 on an object
id that has no file returns `SD_RES_INVALID_PARMS`, and the object id has a
file afterwards (empty, without attribute). -/
theorem create_zero_copies_creates_file :
    st_empty.files 9 = none ∧
    (store_queue_request env_ok 1 st_empty
      (mk_req Opcode.SD_OP_CREATE_AND_WRITE_OBJ 9 5 0) 0).ret = Res.SD_RES_INVALID_PARMS ∧
    (store_queue_request env_ok 1 st_empty
      (mk_req Opcode.SD_OP_CREATE_AND_WRITE_OBJ 9 5 0) 0).st.files 9 = some ⟨[], none⟩ := by
  refine ⟨rfl, rfl, rfl⟩

/-- C3 (amended): a create-and-write with replica count 0 that passes the
fence, whatever its other fields. When the `open` succeeds, the result is
`SD_RES_INVALID_PARMS` and the only calls made are the `open` and the `close`
(nothing is truncated, attributed or written): an existing file is left
unchanged, and an object id without file is left with the empty,
attribute-less file that the `open` created before the check. When the `open`
fails, the result is `SD_RES_NO_OBJ` or `SD_RES_UNKNOWN` and the store is
unchanged. -/
theorem create_zero_copies (env : Env) (fuel : Nat) (w : St) (req : request) (idx : Nat)
    (hop : req.rq.opcode = Opcode.SD_OP_CREATE_AND_WRITE_OBJ) (hc : req.rq.copies = 0)
    (hl : (env.cluster 0).node_list ≠ []) (he : req.rq.epoch = (env.cluster 0).epoch) :
    (env.open_errno = none →
      (store_queue_request env fuel w req idx).returned = true ∧
      (store_queue_request env fuel w req idx).ret = Res.SD_RES_INVALID_PARMS ∧
      (store_queue_request env fuel w req idx).req.rp.result = Res.SD_RES_INVALID_PARMS ∧
      (store_queue_request env fuel w req idx).st.trace =
        [Event.open_file req.rq.oid true true, Event.close req.rq.oid] ∧
      (∀ f, w.files req.rq.oid = some f →
        (store_queue_request env fuel w req idx).st.files = w.files) ∧
      (w.files req.rq.oid = none →
        (store_queue_request env fuel w req idx).st.files =
          Function.update w.files req.rq.oid (some ⟨[], none⟩))) ∧
    (∀ e, env.open_errno = some e →
      (store_queue_request env fuel w req idx).returned = true ∧
      (store_queue_request env fuel w req idx).ret =
        (if e = Errno.ENOENT then Res.SD_RES_NO_OBJ else Res.SD_RES_UNKNOWN) ∧
      (store_queue_request env fuel w req idx).st.files = w.files) := by
  have hne : (env.cluster 0).node_list.isEmpty = false := by
    cases h : (env.cluster 0).node_list with
    | nil => exact absurd h hl
    | cons a l => rfl
  have hfence : store_queue_request env fuel w req idx =
      dispatch env fuel { w with trace := [] } req idx := by
    simp [store_queue_request, hne, hop, before, after, he]
  rw [hfence]
  refine ⟨?_, ?_⟩
  · intro ho
    cases hf : w.files req.rq.oid with
    | none =>
      simp [dispatch, hop, sys_open, ho, hf, create_path, hc, out_label]
    | some f =>
      simp [dispatch, hop, sys_open, ho, hf, create_path, hc, out_label]
  · intro e ho
    simp [dispatch, hop, sys_open, ho, out_label, St.log]

/-- The amended C3 at a concrete request: replica count 0 on an object id
without file, and the same request when `open` fails. -/
theorem create_zero_copies_witness :
    (store_queue_request env_ok 1 st_empty
      (mk_req Opcode.SD_OP_CREATE_AND_WRITE_OBJ 9 5 0) 0).ret = Res.SD_RES_INVALID_PARMS ∧
    (store_queue_request { env_ok with open_errno := some Errno.other } 1 st_empty
      (mk_req Opcode.SD_OP_CREATE_AND_WRITE_OBJ 9 5 0) 0).ret = Res.SD_RES_UNKNOWN :=
  ⟨((create_zero_copies env_ok 1 st_empty (mk_req Opcode.SD_OP_CREATE_AND_WRITE_OBJ 9 5 0) 0
      rfl rfl (by decide) rfl).1 rfl).2.1,
   ((create_zero_copies { env_ok with open_errno := some Errno.other } 1 st_empty
      (mk_req Opcode.SD_OP_CREATE_AND_WRITE_OBJ 9 5 0) 0 rfl rfl (by decide) rfl).2
      Errno.other rfl).2.1⟩

/-! ## Peer fetch -/

theorem loop_skip (env : Env) (cluster : Nat → cluster_info) (c nr oid offset : Nat) :
    ∀ (j rem i : Nat) (s : FetchSt), j < rem →
    (∀ m < j, env.connect_to c (i + m) (node_name (candidate env s.e nr oid (i + m)))
        (candidate env s.e nr oid (i + m)).port = false) →
    env.connect_to c (i + j) (node_name (candidate env s.e nr oid (i + j)))
        (candidate env s.e nr oid (i + j)).port = true →
    (env.exec_req c (i + j) (read_hdr (cluster c).epoch oid s.rlen offset)).ret = 0 →
    (env.exec_req c (i + j) (read_hdr (cluster c).epoch oid s.rlen offset)).result
      = Res.SD_RES_SUCCESS →
    read_from_one_loop env cluster c nr oid offset rem i s =
      (LoopExit.ret0,
        { st := { files := s.st.files, handles := s.st.handles, zero_block := s.st.zero_block,
                  trace := s.st.trace ++
                    ((List.range j).map fun m =>
                      Event.connect_to (node_name (candidate env s.e nr oid (i + m)))
                        (candidate env s.e nr oid (i + m)).port false) ++
                    [Event.connect_to (node_name (candidate env s.e nr oid (i + j)))
                       (candidate env s.e nr oid (i + j)).port true,
                     Event.exec_req (read_hdr (cluster c).epoch oid s.rlen offset) 0
                       Res.SD_RES_SUCCESS,
                     Event.close_sock] },
          buf := overwrite
            (env.exec_req c (i + j) (read_hdr (cluster c).epoch oid s.rlen offset)).data s.buf,
          rlen := (env.exec_req c (i + j) (read_hdr (cluster c).epoch oid s.rlen offset)).rlen,
          e := s.e }) := by
  intro j
  induction j with
  | zero =>
    intro rem i s hrem _ hconn hret hres
    obtain ⟨k, rfl⟩ : ∃ k, rem = k + 1 := ⟨rem - 1, by omega⟩
    simp only [Nat.add_zero] at hconn hret hres
    simp only [candidate] at hconn hret hres ⊢
    rw [read_from_one_loop]
    simp only [hconn, hret, hres, if_true, ne_eq, not_true_eq_false, if_false]
    simp
  | succ j ih =>
    intro rem i s hrem hfail hconn hret hres
    obtain ⟨k, rfl⟩ : ∃ k, rem = k + 1 := ⟨rem - 1, by omega⟩
    have h0 := hfail 0 (by omega)
    simp only [Nat.add_zero, candidate] at h0
    rw [read_from_one_loop]
    simp only [h0]
    have := ih k (i + 1) { s with st := s.st.log (Event.connect_to (node_name (s.e.getD (env.obj_to_sheep s.e nr oid i) zero_entry)) (s.e.getD (env.obj_to_sheep s.e nr oid i) zero_entry).port false) } (by omega)
      (by intro m hm; have := hfail (m + 1) (by omega); rw [show i + (m + 1) = i + 1 + m by omega] at this; exact this)
      (by rw [show i + 1 + j = i + (j + 1) by omega]; exact hconn)
      (by rw [show i + 1 + j = i + (j + 1) by omega]; exact hret)
      (by rw [show i + 1 + j = i + (j + 1) by omega]; exact hres)
    simp only [Bool.false_eq_true, if_false]
    rw [this]
    simp [St.log, List.range_succ_eq_map, candidate, Nat.add_assoc, Nat.add_comm 1]

theorem skip_events_counts (env : Env) (e : List sheepdog_node_list_entry) (nr oid : Nat) :
    ∀ k, skips (skip_events env e nr oid k) = k ∧ backoffs (skip_events env e nr oid k) = 0 ∧
      refreshes (skip_events env e nr oid k) = 0 ∧ attempts (skip_events env e nr oid k) = k := by
  intro k
  induction k with
  | zero => simp [skips, backoffs, refreshes, attempts, skip_events]
  | succ k ih =>
    obtain ⟨h1, h2, h3, h4⟩ := ih
    simp only [skips, backoffs, refreshes, attempts, skip_events] at h1 h2 h3 h4 ⊢
    simp only [List.range_succ, List.map_append, List.countP_append, h1, h2, h3, h4]
    simp [Event.is_skip, Event.is_backoff, Event.is_refresh, Event.is_attempt]

theorem rounds_ret0 (env : Env) (cluster : Nat → cluster_info) (oid offset fuel c : Nat)
    (s : FetchSt)
    (h : (read_from_one_loop env cluster c (cluster c).node_list.length oid offset
      (cluster c).node_list.length 0
      { s with e := overwrite (cluster c).node_list s.e,
               st := s.st.log (Event.build_node_list (cluster c).node_list.length) }).1
      = LoopExit.ret0) :
    read_from_one_rounds env cluster oid offset (fuel + 1) c s =
      (FetchExit.ret 0,
        (read_from_one_loop env cluster c (cluster c).node_list.length oid offset
          (cluster c).node_list.length 0
          { s with e := overwrite (cluster c).node_list s.e,
                   st := s.st.log (Event.build_node_list (cluster c).node_list.length) }).2) := by
  simp only [read_from_one_rounds]
  revert h
  generalize read_from_one_loop env cluster c (cluster c).node_list.length oid offset
    (cluster c).node_list.length 0 _ = p
  rcases p with ⟨x, y⟩
  intro h
  simp only at h
  subst h
  rfl

theorem rounds_exhausted (env : Env) (cluster : Nat → cluster_info) (oid offset fuel c : Nat)
    (s : FetchSt)
    (h : (read_from_one_loop env cluster c (cluster c).node_list.length oid offset
      (cluster c).node_list.length 0
      { s with e := overwrite (cluster c).node_list s.e,
               st := s.st.log (Event.build_node_list (cluster c).node_list.length) }).1
      = LoopExit.exhausted) :
    read_from_one_rounds env cluster oid offset (fuel + 1) c s =
      (FetchExit.ret (-1),
        (read_from_one_loop env cluster c (cluster c).node_list.length oid offset
          (cluster c).node_list.length 0
          { s with e := overwrite (cluster c).node_list s.e,
                   st := s.st.log (Event.build_node_list (cluster c).node_list.length) }).2) := by
  simp only [read_from_one_rounds]
  revert h
  generalize read_from_one_loop env cluster c (cluster c).node_list.length oid offset
    (cluster c).node_list.length 0 _ = p
  rcases p with ⟨x, y⟩
  intro h
  simp only at h
  subst h
  rfl

theorem rounds_again (env : Env) (cluster : Nat → cluster_info) (oid offset fuel c : Nat)
    (s : FetchSt)
    (h : (read_from_one_loop env cluster c (cluster c).node_list.length oid offset
      (cluster c).node_list.length 0
      { s with e := overwrite (cluster c).node_list s.e,
               st := s.st.log (Event.build_node_list (cluster c).node_list.length) }).1
      = LoopExit.again) :
    read_from_one_rounds env cluster oid offset (fuel + 1) c s =
      read_from_one_rounds env cluster oid offset fuel (c + 1)
        (read_from_one_loop env cluster c (cluster c).node_list.length oid offset
          (cluster c).node_list.length 0
          { s with e := overwrite (cluster c).node_list s.e,
                   st := s.st.log (Event.build_node_list (cluster c).node_list.length) }).2 := by
  simp only [read_from_one_rounds]
  revert h
  generalize read_from_one_loop env cluster c (cluster c).node_list.length oid offset
    (cluster c).node_list.length 0 _ = p
  rcases p with ⟨x, y⟩
  intro h
  simp only at h
  subst h
  rfl

/-- C7: when the first `k` candidates in placement order fail to connect and
the candidate of attempt `k` connects and answers `SD_RES_SUCCESS`,
`read_from_one` returns 0 in its first round, the buffer holds that
candidate's bytes, the calls made are one `build_node_list`, `k` failed
`connect_to` and the successful exchange, with exactly `k` skips and no
backoff, and no handle is left open. -/
theorem peer_fetch_skips_unreachable (env : Env) (cluster : Nat → cluster_info) (fuel : Nat)
    (st : St) (oid rlen : Nat) (buf : Bytes) (offset k : Nat)
    (hk : k < (cluster 0).node_list.length)
    (hfail : ∀ i < k, env.connect_to 0 i
      (node_name (candidate env (first_array env cluster) (cluster 0).node_list.length oid i))
      (candidate env (first_array env cluster) (cluster 0).node_list.length oid i).port = false)
    (hconn : env.connect_to 0 k
      (node_name (candidate env (first_array env cluster) (cluster 0).node_list.length oid k))
      (candidate env (first_array env cluster) (cluster 0).node_list.length oid k).port = true)
    (hret : (env.exec_req 0 k (read_hdr (cluster 0).epoch oid rlen offset)).ret = 0)
    (hres : (env.exec_req 0 k (read_hdr (cluster 0).epoch oid rlen offset)).result
      = Res.SD_RES_SUCCESS) :
    (read_from_one env cluster (fuel + 1) st oid rlen buf offset).1 = FetchExit.ret 0 ∧
    (read_from_one env cluster (fuel + 1) st oid rlen buf offset).2.buf =
      overwrite (env.exec_req 0 k (read_hdr (cluster 0).epoch oid rlen offset)).data buf ∧
    (read_from_one env cluster (fuel + 1) st oid rlen buf offset).2.st.trace =
      st.trace ++ [Event.build_node_list (cluster 0).node_list.length] ++
        skip_events env (first_array env cluster) (cluster 0).node_list.length oid k ++
        [Event.connect_to
           (node_name (candidate env (first_array env cluster) (cluster 0).node_list.length oid k))
           (candidate env (first_array env cluster) (cluster 0).node_list.length oid k).port true,
         Event.exec_req (read_hdr (cluster 0).epoch oid rlen offset) 0 Res.SD_RES_SUCCESS,
         Event.close_sock] ∧
    skips (read_from_one env cluster (fuel + 1) st oid rlen buf offset).2.st.trace
      = skips st.trace + k ∧
    backoffs (read_from_one env cluster (fuel + 1) st oid rlen buf offset).2.st.trace
      = backoffs st.trace ∧
    refreshes (read_from_one env cluster (fuel + 1) st oid rlen buf offset).2.st.trace
      = refreshes st.trace + 1 ∧
    (read_from_one env cluster (fuel + 1) st oid rlen buf offset).2.st.handles = st.handles := by
  have key := loop_skip env cluster 0 (cluster 0).node_list.length oid offset k
    (cluster 0).node_list.length 0
    { st := st.log (Event.build_node_list (cluster 0).node_list.length), buf := buf, rlen := rlen,
      e := first_array env cluster } hk
    (by intro m hm; simpa using hfail m hm) (by simpa using hconn) (by simpa using hret)
    (by simpa using hres)
  simp only [Nat.zero_add] at key
  have hrun := rounds_ret0 env cluster oid offset fuel 0
    { st := st, buf := buf, rlen := rlen, e := List.replicate env.SD_MAX_NODES zero_entry }
    (by rw [show overwrite (cluster 0).node_list (List.replicate env.SD_MAX_NODES zero_entry)
          = first_array env cluster from rfl, key])
  rw [show overwrite (cluster 0).node_list (List.replicate env.SD_MAX_NODES zero_entry)
          = first_array env cluster from rfl, key] at hrun
  rw [read_from_one, hrun]
  obtain ⟨c1, c2, c3, c4⟩ := skip_events_counts env (first_array env cluster)
    (cluster 0).node_list.length oid k
  simp only [skips, backoffs, refreshes, attempts, skip_events] at c1 c2 c3 c4
  refine ⟨rfl, rfl, ?_, ?_, ?_, ?_, rfl⟩
  · simp only [St.log, skip_events, List.append_assoc]
  · simp only [skips, St.log, List.countP_append, c1]
    simp [Event.is_skip]
  · simp only [backoffs, St.log, List.countP_append, c2]
    simp [Event.is_backoff]
  · simp only [refreshes, St.log, List.countP_append, c3]
    simp [Event.is_refresh]

/-- C7 for three nodes whose first two candidates are unreachable. -/
theorem peer_fetch_skips_unreachable_witness :
    (read_from_one env_two_down env_two_down.cluster 1 st_empty 9 4 [] 0).1 = FetchExit.ret 0 ∧
    (read_from_one env_two_down env_two_down.cluster 1 st_empty 9 4 [] 0).2.buf = [1, 2, 3, 4] ∧
    skips (read_from_one env_two_down env_two_down.cluster 1 st_empty 9 4 [] 0).2.st.trace = 2 ∧
    backoffs (read_from_one env_two_down env_two_down.cluster 1 st_empty 9 4 [] 0).2.st.trace
      = 0 :=
  have h := peer_fetch_skips_unreachable env_two_down env_two_down.cluster 0 st_empty 9 4 [] 0 2
    (by decide) (by intro i hi; simp [env_two_down]; omega) (by rfl) (by rfl) (by rfl)
  ⟨h.1, h.2.1.trans (by rfl), h.2.2.2.1.trans (by rfl), h.2.2.2.2.1.trans (by rfl)⟩

theorem loop_stale (env : Env) (cluster : Nat → cluster_info) (c nr oid offset : Nat) :
    ∀ (j rem i : Nat) (s : FetchSt), j < rem →
    (∀ m < j, env.connect_to c (i + m) (node_name (candidate env s.e nr oid (i + m)))
        (candidate env s.e nr oid (i + m)).port = false ∨
      ∀ h, (env.exec_req c (i + m) h).ret ≠ 0) →
    env.connect_to c (i + j) (node_name (candidate env s.e nr oid (i + j)))
        (candidate env s.e nr oid (i + j)).port = true →
    (∀ h, (env.exec_req c (i + j) h).ret = 0 ∧
      ((env.exec_req c (i + j) h).result = Res.SD_RES_OLD_NODE_VER ∨
       (env.exec_req c (i + j) h).result = Res.SD_RES_NEW_NODE_VER)) →
    ∃ t b rl, read_from_one_loop env cluster c nr oid offset rem i s =
      (LoopExit.again,
        { st := { files := s.st.files, handles := s.st.handles, zero_block := s.st.zero_block,
                  trace := s.st.trace ++ t ++ [Event.sleep] },
          buf := b, rlen := rl, e := s.e }) ∧
      backoffs t = 0 ∧ refreshes t = 0 ∧ attempts t = j + 1 := by
  intro j
  induction j with
  | zero =>
    intro rem i s hrem _ hconn hex
    obtain ⟨k, rfl⟩ : ∃ k, rem = k + 1 := ⟨rem - 1, by omega⟩
    simp only [Nat.add_zero, candidate] at hconn hex
    obtain ⟨hret, hres⟩ := hex (read_hdr (cluster c).epoch oid s.rlen offset)
    refine ⟨[Event.connect_to (node_name (candidate env s.e nr oid i))
               (candidate env s.e nr oid i).port true,
             Event.exec_req (read_hdr (cluster c).epoch oid s.rlen offset) 0
               (env.exec_req c i (read_hdr (cluster c).epoch oid s.rlen offset)).result,
             Event.close_sock],
            overwrite (env.exec_req c i (read_hdr (cluster c).epoch oid s.rlen offset)).data s.buf,
            (env.exec_req c i (read_hdr (cluster c).epoch oid s.rlen offset)).rlen,
            ?_, ?_, ?_, ?_⟩
    · rw [read_from_one_loop]
      simp only [hconn, hret, if_true, ne_eq, not_true_eq_false, if_false, candidate]
      rcases hres with hres | hres <;> simp [hres, St.log]
    · simp [backoffs, Event.is_backoff]
    · simp [refreshes, Event.is_refresh]
    · simp [attempts, Event.is_attempt]
  | succ j ih =>
    intro rem i s hrem hfail hconn hex
    obtain ⟨k, rfl⟩ : ∃ k, rem = k + 1 := ⟨rem - 1, by omega⟩
    have h0 := hfail 0 (by omega)
    simp only [Nat.add_zero, candidate] at h0
    have step : ∀ (s1 : FetchSt) (pre : List Event), s1.e = s.e → s1.st.files = s.st.files →
        s1.st.handles = s.st.handles → s1.st.zero_block = s.st.zero_block →
        s1.st.trace = s.st.trace ++ pre → backoffs pre = 0 → refreshes pre = 0 →
        attempts pre = 1 →
        read_from_one_loop env cluster c nr oid offset (k + 1) i s =
          read_from_one_loop env cluster c nr oid offset k (i + 1) s1 →
        ∃ t b rl, read_from_one_loop env cluster c nr oid offset (k + 1) i s =
          (LoopExit.again,
            { st := { files := s.st.files, handles := s.st.handles,
                      zero_block := s.st.zero_block,
                      trace := s.st.trace ++ t ++ [Event.sleep] },
              buf := b, rlen := rl, e := s.e }) ∧
          backoffs t = 0 ∧ refreshes t = 0 ∧ attempts t = j + 1 + 1 := by
      intro s1 pre he hf hh hz ht hb hr ha hstep
      obtain ⟨t, b, rl, h1, h2, h3, h4⟩ := ih k (i + 1) s1 (by omega)
        (by intro m hm; have := hfail (m + 1) (by omega)
            rw [show i + (m + 1) = i + 1 + m by omega, ← he] at this; exact this)
        (by rw [show i + 1 + j = i + (j + 1) by omega, he]; exact hconn)
        (by rw [show i + 1 + j = i + (j + 1) by omega]; exact hex)
      refine ⟨pre ++ t, b, rl, ?_, ?_, ?_, ?_⟩
      · rw [hstep, h1, he, hf, hh, hz, ht]
        simp only [List.append_assoc]
      · simp only [backoffs, List.countP_append] at hb h2 ⊢; omega
      · simp only [refreshes, List.countP_append] at hr h3 ⊢; omega
      · simp only [attempts, List.countP_append] at ha h4 ⊢; omega
    by_cases hc : env.connect_to c i
        (node_name (s.e.getD (env.obj_to_sheep s.e nr oid i) zero_entry))
        (s.e.getD (env.obj_to_sheep s.e nr oid i) zero_entry).port = true
    · have hr : ∀ h, (env.exec_req c i h).ret ≠ 0 := by
        rcases h0 with h0 | h0
        · rw [hc] at h0; exact absurd h0 (by decide)
        · exact h0
      refine step
        { st := { files := s.st.files,
                  handles := (Handle.sock (node_name (candidate env s.e nr oid i))
                      (candidate env s.e nr oid i).port :: s.st.handles).erase
                    (Handle.sock (node_name (candidate env s.e nr oid i))
                      (candidate env s.e nr oid i).port),
                  zero_block := s.st.zero_block,
                  trace := s.st.trace ++
                    [Event.connect_to (node_name (candidate env s.e nr oid i))
                       (candidate env s.e nr oid i).port true,
                     Event.exec_req (read_hdr (cluster c).epoch oid s.rlen offset)
                       (env.exec_req c i (read_hdr (cluster c).epoch oid s.rlen offset)).ret
                       (env.exec_req c i (read_hdr (cluster c).epoch oid s.rlen offset)).result,
                     Event.close_sock] },
          buf := overwrite
            (env.exec_req c i (read_hdr (cluster c).epoch oid s.rlen offset)).data s.buf,
          rlen := (env.exec_req c i (read_hdr (cluster c).epoch oid s.rlen offset)).rlen,
          e := s.e }
        [Event.connect_to (node_name (candidate env s.e nr oid i))
           (candidate env s.e nr oid i).port true,
         Event.exec_req (read_hdr (cluster c).epoch oid s.rlen offset)
           (env.exec_req c i (read_hdr (cluster c).epoch oid s.rlen offset)).ret
           (env.exec_req c i (read_hdr (cluster c).epoch oid s.rlen offset)).result,
         Event.close_sock] rfl rfl ?_ rfl rfl ?_ ?_ ?_ ?_
      pick_goal 5
      · rw [read_from_one_loop]
        simp only [hc, if_true, hr, ne_eq, not_false_eq_true]
        rfl
      · simp
      · simp [backoffs, Event.is_backoff]
      · simp [refreshes, Event.is_refresh]
      · simp [attempts, Event.is_attempt]
    · refine step
        { s with st := s.st.log (Event.connect_to (node_name (candidate env s.e nr oid i))
            (candidate env s.e nr oid i).port false) }
        [Event.connect_to (node_name (candidate env s.e nr oid i))
           (candidate env s.e nr oid i).port false] rfl rfl rfl rfl rfl ?_ ?_ ?_ ?_
      pick_goal 4
      · rw [read_from_one_loop]
        simp only [hc, if_false, Bool.false_eq_true]
        rfl
      · simp [backoffs, Event.is_backoff]
      · simp [refreshes, Event.is_refresh]
      · simp [attempts, Event.is_attempt]

/-- C8: when, in the first round, the candidates before attempt `j` do not
answer (no connection, or a failed exchange) and the candidate of attempt `j`
answers `SD_RES_OLD_NODE_VER` or `SD_RES_NEW_NODE_VER`, and the candidate of
attempt 0 under the re-read node list connects and answers `SD_RES_SUCCESS`
with the bytes `d`, then `read_from_one` returns 0 with `d` at the start of the
buffer; its calls are: `build_node_list`, the `j + 1` attempts of the first
round, one `sleep`, `build_node_list` again, and the exchange with the
candidate of attempt 0 of the new list. -/
theorem peer_fetch_retries_on_stale_epoch (env : Env) (cluster : Nat → cluster_info)
    (fuel : Nat) (st : St) (oid rlen : Nat) (buf : Bytes) (offset j : Nat) (d : Bytes)
    (hj : j < (cluster 0).node_list.length)
    (hquiet : ∀ i < j, env.connect_to 0 i
        (node_name (candidate env (first_array env cluster) (cluster 0).node_list.length oid i))
        (candidate env (first_array env cluster) (cluster 0).node_list.length oid i).port = false ∨
      ∀ h, (env.exec_req 0 i h).ret ≠ 0)
    (hconn0 : env.connect_to 0 j
      (node_name (candidate env (first_array env cluster) (cluster 0).node_list.length oid j))
      (candidate env (first_array env cluster) (cluster 0).node_list.length oid j).port = true)
    (hstale : ∀ h, (env.exec_req 0 j h).ret = 0 ∧
      ((env.exec_req 0 j h).result = Res.SD_RES_OLD_NODE_VER ∨
       (env.exec_req 0 j h).result = Res.SD_RES_NEW_NODE_VER))
    (hnr1 : 0 < (cluster 1).node_list.length)
    (hconn1 : env.connect_to 1 0
      (node_name (candidate env (second_array env cluster) (cluster 1).node_list.length oid 0))
      (candidate env (second_array env cluster) (cluster 1).node_list.length oid 0).port = true)
    (hok : ∀ h, (env.exec_req 1 0 h).ret = 0 ∧
      (env.exec_req 1 0 h).result = Res.SD_RES_SUCCESS ∧ (env.exec_req 1 0 h).data = d) :
    ∃ (t : List Event) (rl : Nat) (b : Bytes) (fs : FetchSt),
      read_from_one env cluster (fuel + 2) st oid rlen buf offset = (FetchExit.ret 0, fs) ∧
      fs.buf = overwrite d b ∧
      fs.e = second_array env cluster ∧
      fs.st.handles = st.handles ∧
      fs.st.trace = st.trace ++ [Event.build_node_list (cluster 0).node_list.length] ++ t ++
        [Event.sleep, Event.build_node_list (cluster 1).node_list.length,
         Event.connect_to
           (node_name (candidate env (second_array env cluster) (cluster 1).node_list.length oid 0))
           (candidate env (second_array env cluster) (cluster 1).node_list.length oid 0).port true,
         Event.exec_req (read_hdr (cluster 1).epoch oid rl offset) 0 Res.SD_RES_SUCCESS,
         Event.close_sock] ∧
      backoffs t = 0 ∧ refreshes t = 0 ∧ attempts t = j + 1 ∧
      backoffs fs.st.trace = backoffs st.trace + 1 ∧
      refreshes fs.st.trace = refreshes st.trace + 2 := by
  obtain ⟨t, b, rl, h1, h2, h3, h4⟩ := loop_stale env cluster 0 (cluster 0).node_list.length
    oid offset j (cluster 0).node_list.length 0
    { st := st.log (Event.build_node_list (cluster 0).node_list.length), buf := buf,
      rlen := rlen, e := first_array env cluster } hj
    (by intro m hm; simpa using hquiet m hm) (by simpa using hconn0) (by simpa using hstale)
  have r0 := rounds_again env cluster oid offset (fuel + 1) 0
    { st := st, buf := buf, rlen := rlen, e := List.replicate env.SD_MAX_NODES zero_entry }
    (by rw [show overwrite (cluster 0).node_list (List.replicate env.SD_MAX_NODES zero_entry)
          = first_array env cluster from rfl, h1])
  rw [show overwrite (cluster 0).node_list (List.replicate env.SD_MAX_NODES zero_entry)
          = first_array env cluster from rfl, h1] at r0
  obtain ⟨hret, hres, hdat⟩ := hok (read_hdr (cluster 1).epoch oid rl offset)
  have key := loop_skip env cluster 1 (cluster 1).node_list.length oid offset 0
    (cluster 1).node_list.length 0
    { st := { files := st.files, handles := st.handles, zero_block := st.zero_block,
              trace := st.trace ++ [Event.build_node_list (cluster 0).node_list.length] ++ t ++
                [Event.sleep, Event.build_node_list (cluster 1).node_list.length] },
      buf := b, rlen := rl, e := second_array env cluster } hnr1
    (by intro m hm; omega) (by simpa using hconn1) (by simpa using hret) (by simpa using hres)
  simp only [Nat.zero_add, Nat.add_zero, List.range_zero, List.map_nil, List.append_nil] at key
  have r1 := rounds_ret0 env cluster oid offset fuel 1
    { st := { files := st.files, handles := st.handles, zero_block := st.zero_block,
              trace := st.trace ++ [Event.build_node_list (cluster 0).node_list.length] ++ t ++
                [Event.sleep] },
      buf := b, rlen := rl, e := first_array env cluster }
    (by simp only [St.log, List.append_assoc, List.singleton_append] at key ⊢
        rw [show overwrite (cluster 1).node_list (first_array env cluster)
          = second_array env cluster from rfl, key])
  rw [show overwrite (cluster 1).node_list (first_array env cluster)
          = second_array env cluster from rfl] at r1
  simp only [St.log, List.append_assoc, List.singleton_append, List.cons_append,
    List.nil_append] at key r1 r0
  rw [key] at r1
  have hrun := r0.trans r1
  simp only [backoffs, refreshes] at h2 h3
  refine ⟨t, rl, b, _, hrun, ?_, rfl, rfl, ?_, h2, h3, h4, ?_, ?_⟩
  · simp only [hdat]
  · simp only [List.append_assoc, List.singleton_append, List.cons_append, List.nil_append]
  · simp only [backoffs, List.countP_append, List.countP_cons, List.countP_nil, h2]
    simp [Event.is_backoff]
  · simp only [refreshes, List.countP_append, List.countP_cons, List.countP_nil, h3]
    simp [Event.is_refresh]

/-- C8 on three nodes: the first candidate is unreachable, the second answers
`SD_RES_OLD_NODE_VER`, and after the refresh the first candidate of the new
list answers `SD_RES_SUCCESS` with `[1, 2, 3, 4]`. -/
theorem peer_fetch_retries_on_stale_epoch_witness :
    (read_from_one env_stale env_stale.cluster 2 st_empty 9 4 [] 0).1 = FetchExit.ret 0 ∧
    (read_from_one env_stale env_stale.cluster 2 st_empty 9 4 [] 0).2.buf.take 4
      = [1, 2, 3, 4] ∧
    backoffs (read_from_one env_stale env_stale.cluster 2 st_empty 9 4 [] 0).2.st.trace = 1 ∧
    refreshes (read_from_one env_stale env_stale.cluster 2 st_empty 9 4 [] 0).2.st.trace = 2 := by
  obtain ⟨t, rl, b, fs, h, hb, _, _, _, _, _, _, hbo, hre⟩ :=
    peer_fetch_retries_on_stale_epoch env_stale env_stale.cluster 0 st_empty 9 4 [] 0 1
      [1, 2, 3, 4] (by decide)
      (by intro i hi; left; obtain rfl : i = 0 := by omega
          rfl)
      (by rfl) (by intro h; exact ⟨rfl, Or.inl rfl⟩) (by decide) (by rfl)
      (by intro h; exact ⟨rfl, rfl, rfl⟩)
  rw [h]
  refine ⟨rfl, ?_, hbo.trans (by rfl), hre.trans (by rfl)⟩
  simp only [hb, overwrite]
  rfl

theorem loop_frame (env : Env) (cluster : Nat → cluster_info) (c nr oid offset : Nat) :
    ∀ (k i : Nat) (s : FetchSt), ∃ evs,
      (read_from_one_loop env cluster c nr oid offset k i s).2.st =
        { files := s.st.files, handles := s.st.handles, zero_block := s.st.zero_block,
          trace := s.st.trace ++ evs } ∧
      (read_from_one_loop env cluster c nr oid offset k i s).2.e = s.e ∧
      ∀ e ∈ evs, e.is_net = true := by
  intro k
  induction k with
  | zero => intro i s; exact ⟨[], by simp [read_from_one_loop], rfl, by simp⟩
  | succ k ih =>
    intro i s
    have step : ∀ (s1 : FetchSt), s1.e = s.e → s1.st.files = s.st.files →
        s1.st.handles = s.st.handles → s1.st.zero_block = s.st.zero_block →
        (∃ pre, s1.st.trace = s.st.trace ++ pre ∧ ∀ e ∈ pre, e.is_net = true) →
        ∃ evs, (read_from_one_loop env cluster c nr oid offset k (i + 1) s1).2.st =
          { files := s.st.files, handles := s.st.handles, zero_block := s.st.zero_block,
            trace := s.st.trace ++ evs } ∧
          (read_from_one_loop env cluster c nr oid offset k (i + 1) s1).2.e = s.e ∧
          ∀ e ∈ evs, e.is_net = true := by
      intro s1 he hf hh hz hpre
      obtain ⟨pre, ht, hp⟩ := hpre
      obtain ⟨evs, h1, h2, h3⟩ := ih (i + 1) s1
      refine ⟨pre ++ evs, ?_, ?_, ?_⟩
      · rw [h1, hf, hh, hz, ht, List.append_assoc]
      · rw [h2, he]
      · intro e hmem
        rcases List.mem_append.1 hmem with h | h
        · exact hp e h
        · exact h3 e h
    have fin : ∀ (s1 : FetchSt) (x : LoopExit), s1.e = s.e →
        s1.st.files = s.st.files →
        s1.st.handles = s.st.handles → s1.st.zero_block = s.st.zero_block →
        (∃ pre, s1.st.trace = s.st.trace ++ pre ∧ ∀ e ∈ pre, e.is_net = true) →
        ∃ evs, ((x, s1) : LoopExit × FetchSt).2.st =
          { files := s.st.files, handles := s.st.handles, zero_block := s.st.zero_block,
            trace := s.st.trace ++ evs } ∧
          ((x, s1) : LoopExit × FetchSt).2.e = s.e ∧
          ∀ e ∈ evs, e.is_net = true := by
      intro s1 x he hf hh hz hpre
      obtain ⟨pre, ht, hp⟩ := hpre
      refine ⟨pre, ?_, he, hp⟩
      show s1.st = _
      rw [← hf, ← hh, ← hz, ← ht]
    rw [read_from_one_loop]
    simp only
    split
    · split
      · refine step _ rfl rfl (by simp) rfl ⟨_, rfl, by simp [Event.is_net]⟩
      · split
        · refine fin _ _ rfl rfl (by simp) rfl ⟨_, rfl, by simp [Event.is_net]⟩
        · refine fin _ _ rfl rfl (by simp [St.log]) rfl
            ⟨_, by simp only [St.log, List.append_assoc]; rfl, by simp [Event.is_net]⟩
        · refine fin _ _ rfl rfl (by simp [St.log]) rfl
            ⟨_, by simp only [St.log, List.append_assoc]; rfl, by simp [Event.is_net]⟩
        · refine step _ rfl rfl (by simp) rfl ⟨_, rfl, by simp [Event.is_net]⟩
    · refine step _ rfl rfl rfl rfl ⟨_, rfl, by simp [Event.is_net]⟩

theorem rounds_frame (env : Env) (cluster : Nat → cluster_info) (oid offset : Nat) :
    ∀ (fuel c : Nat) (s : FetchSt), ∃ evs,
      (read_from_one_rounds env cluster oid offset fuel c s).2.st =
        { files := s.st.files, handles := s.st.handles, zero_block := s.st.zero_block,
          trace := s.st.trace ++ evs } ∧
      ∀ e ∈ evs, e.is_net = true := by
  intro fuel
  induction fuel with
  | zero => intro c s; exact ⟨[], by simp [read_from_one_rounds], by simp⟩
  | succ fuel ih =>
    intro c s
    obtain ⟨evs, h1, _, h3⟩ := loop_frame env cluster c (cluster c).node_list.length oid offset
      (cluster c).node_list.length 0
      { s with e := overwrite (cluster c).node_list s.e,
               st := s.st.log (Event.build_node_list (cluster c).node_list.length) }
    have hall : ∀ e ∈ Event.build_node_list (cluster c).node_list.length :: evs,
        e.is_net = true := by
      intro e he
      rcases List.mem_cons.1 he with h | h
      · rw [h]; rfl
      · exact h3 e h
    have h1raw := h1
    simp only [St.log, List.append_assoc, List.singleton_append] at h1
    cases hx : (read_from_one_loop env cluster c (cluster c).node_list.length oid offset
      (cluster c).node_list.length 0
      { s with e := overwrite (cluster c).node_list s.e,
               st := s.st.log (Event.build_node_list (cluster c).node_list.length) }).1 with
    | ret0 =>
      rw [rounds_ret0 env cluster oid offset fuel c s hx]
      exact ⟨_, h1, hall⟩
    | exhausted =>
      rw [rounds_exhausted env cluster oid offset fuel c s hx]
      exact ⟨_, h1, hall⟩
    | again =>
      rw [rounds_again env cluster oid offset fuel c s hx]
      obtain ⟨evs2, g1, g2⟩ := ih (c + 1) (read_from_one_loop env cluster c
        (cluster c).node_list.length oid offset (cluster c).node_list.length 0
        { s with e := overwrite (cluster c).node_list s.e,
                 st := s.st.log (Event.build_node_list (cluster c).node_list.length) }).2
      refine ⟨(Event.build_node_list (cluster c).node_list.length :: evs) ++ evs2, ?_, ?_⟩
      · rw [g1, h1raw]
        simp only [St.log, List.append_assoc, List.singleton_append, List.cons_append,
          List.nil_append]
      · intro e he
        rcases List.mem_append.1 he with h | h
        · exact hall e h
        · exact g2 e h

/-- Calls made by the peer fetch: `read_from_other_sheeps` leaves the files,
the open handles and the scratch slots as they were and adds only calls of the
peer fetch to the trace. -/
theorem fetch_frame (env : Env) (cluster : Nat → cluster_info) (fuel : Nat) (st : St)
    (oid : Nat) (buf : Bytes) (copies : Nat) : ∃ evs,
      (read_from_other_sheeps env cluster fuel st oid buf copies).2.st =
        { files := st.files, handles := st.handles, zero_block := st.zero_block,
          trace := st.trace ++ evs } ∧
      ∀ e ∈ evs, e.is_net = true :=
  rounds_frame env cluster oid 0 fuel 0 _

/-! ## Attribute before data -/

@[simp] theorem attr_first_true (l : List Event) : attr_first true l = true := by
  induction l with
  | nil => rfl
  | cons e t ih =>
    cases e <;> simp [attr_first, ih]
    case fsetxattr oid c ok => cases ok <;> simp [attr_first, ih]

theorem attr_first_net (b : Bool) (l : List Event) (h : ∀ e ∈ l, e.needs_attr = false) :
    attr_first b l = true := by
  induction l with
  | nil => rfl
  | cons e t ih =>
    have he := h e (List.mem_cons_self _ _)
    have ht := ih (fun x hx => h x (List.mem_cons_of_mem _ hx))
    cases e <;> simp_all [attr_first]
    case fsetxattr oid c ok => cases ok <;> simp_all [attr_first]

theorem fetch_frame_of_eq (env : Env) (cluster : Nat → cluster_info) (fuel : Nat) (st : St)
    (oid : Nat) (buf : Bytes) (copies : Nat) (x : FetchExit) (fs : FetchSt)
    (h : read_from_other_sheeps env cluster fuel st oid buf copies = (x, fs)) :
    ∃ evs, fs.st = { files := st.files, handles := st.handles, zero_block := st.zero_block,
                     trace := st.trace ++ evs } ∧
      ∀ e ∈ evs, e.is_net = true := by
  have := fetch_frame env cluster fuel st oid buf copies
  rw [h] at this
  exact this

theorem create_path_attr (env : Env) (fuel : Nat) (s : St) (req : request) (idx : Nat)
    (hop : req.rq.opcode = Opcode.SD_OP_CREATE_AND_WRITE_OBJ)
    (htr : s.trace = [Event.open_file req.rq.oid true true]) :
    attr_first false (create_path env fuel s req idx (some req.rq.oid)).st.trace = true ∧
    (Event.fsetxattr req.rq.oid req.rq.copies false ∈
        (create_path env fuel s req idx (some req.rq.oid)).st.trace →
      (create_path env fuel s req idx (some req.rq.oid)).returned = true ∧
      (create_path env fuel s req idx (some req.rq.oid)).ret = Res.SD_RES_SYSTEM_ERROR ∧
      (create_path env fuel s req idx (some req.rq.oid)).req.rp.result
        = Res.SD_RES_SYSTEM_ERROR ∧
      ∀ e ∈ (create_path env fuel s req idx (some req.rq.oid)).st.trace,
        e.needs_attr = false) := by
  by_cases hc : req.rq.copies = 0
  · simp [create_path, hc, out_label, htr, attr_first, Event.needs_attr, Event.is_net]
  cases ht : env.ftruncate_fails
  swap
  · simp [create_path, hc, ht, out_label, htr, St.log, attr_first, Event.needs_attr, Event.is_net]
  cases hs : env.fsetxattr_fails
  swap
  · simp [create_path, hc, ht, hs, out_label, htr, St.log, attr_first, Event.needs_attr,
      Event.is_net]
  cases hd : env.is_data_obj req.rq.oid
  · by_cases hw : pwrite_ret env.data_pwrite req.rq.data_length = (req.rq.data_length : Int)
    · simp [create_path, hc, ht, hs, hd, second_switch, hop, hw, out_label, htr, St.log,
        attr_first, Event.needs_attr, Event.is_net]
    · simp [create_path, hc, ht, hs, hd, second_switch, hop, hw, out_label, htr, St.log,
        attr_first, Event.needs_attr, Event.is_net]
  by_cases hcow : req.rq.flags &&& env.SD_FLAG_CMD_COW = 0
  · by_cases hsw : pwrite_ret env.seed_pwrite env.SD_DATA_OBJ_SIZE = (env.SD_DATA_OBJ_SIZE : Int)
    · by_cases hw : pwrite_ret env.data_pwrite req.rq.data_length = (req.rq.data_length : Int)
      · simp [create_path, hc, ht, hs, hd, hcow, seed_write, hsw, second_switch, hop, hw,
          out_label, htr, St.log, attr_first, Event.needs_attr, Event.is_net]
      · simp [create_path, hc, ht, hs, hd, hcow, seed_write, hsw, second_switch, hop, hw,
          out_label, htr, St.log, attr_first, Event.needs_attr, Event.is_net]
    · simp [create_path, hc, ht, hs, hd, hcow, seed_write, hsw, out_label, htr, St.log,
        attr_first, Event.needs_attr, Event.is_net]
  · simp only [create_path, hc, ht, hs, hd, hcow, if_false, if_true, not_true_eq_false,
      ne_eq, not_false_eq_true, Bool.false_eq_true]
    have hno : ∀ evs : List Event, (∀ e ∈ evs, e.is_net = true) →
        Event.fsetxattr req.rq.oid req.rq.copies false ∉ evs := by
      intro evs hnet hmem
      have := hnet _ hmem
      simp [Event.is_net] at this
    split
    · rename_i fs hfe
      obtain ⟨evs, hfs, hnet⟩ := fetch_frame_of_eq _ _ _ _ _ _ _ _ _ hfe
      have := hno evs hnet
      simp [hfs, htr, attr_first, Event.needs_attr, Event.is_net, this]
    · rename_i v fs hfe
      obtain ⟨evs, hfs, hnet⟩ := fetch_frame_of_eq _ _ _ _ _ _ _ _ _ hfe
      have := hno evs hnet
      by_cases hv : v = 0
      · by_cases hsw : pwrite_ret env.seed_pwrite env.SD_DATA_OBJ_SIZE
            = (env.SD_DATA_OBJ_SIZE : Int)
        · by_cases hw : pwrite_ret env.data_pwrite req.rq.data_length
              = (req.rq.data_length : Int)
          · simp [hv, seed_write, hsw, second_switch, hop, hw, out_label, hfs, htr, attr_first, Event.needs_attr, Event.is_net,
              this]
          · simp [hv, seed_write, hsw, second_switch, hop, hw, out_label, hfs, htr, attr_first, Event.needs_attr, Event.is_net,
              this]
        · simp [hv, seed_write, hsw, out_label, hfs, htr, attr_first, Event.needs_attr, Event.is_net, this]
      · simp [hv, out_label, hfs, htr, attr_first, Event.needs_attr, Event.is_net, this]

/-- C5: in every execution of a create-and-write request, for every outcome
of the file operations and of the peer fetch (also when the fetch never
returns), no payload write and no call of the peer fetch is made before
`fsetxattr` has succeeded in that execution; and when `fsetxattr` fails, the
request returns `SD_RES_SYSTEM_ERROR` without any write to the file and
without any call of the peer fetch. -/
theorem attribute_before_data (env : Env) (fuel : Nat) (w : St) (req : request) (idx : Nat)
    (hop : req.rq.opcode = Opcode.SD_OP_CREATE_AND_WRITE_OBJ) :
    attr_first false (store_queue_request env fuel w req idx).st.trace = true ∧
    (Event.fsetxattr req.rq.oid req.rq.copies false ∈
        (store_queue_request env fuel w req idx).st.trace →
      (store_queue_request env fuel w req idx).returned = true ∧
      (store_queue_request env fuel w req idx).ret = Res.SD_RES_SYSTEM_ERROR ∧
      (store_queue_request env fuel w req idx).req.rp.result = Res.SD_RES_SYSTEM_ERROR ∧
      ∀ e ∈ (store_queue_request env fuel w req idx).st.trace, e.needs_attr = false) := by
  by_cases hl : (env.cluster 0).node_list.isEmpty = true
  · simp [store_queue_request, hl, out_label, attr_first]
  by_cases hb : before req.rq.epoch (env.cluster 0).epoch = true
  · simp [store_queue_request, hl, hop, hb, out_label, attr_first]
  by_cases ha : after req.rq.epoch (env.cluster 0).epoch = true
  · simp [store_queue_request, hl, hop, hb, ha, out_label, attr_first]
  have e1 : store_queue_request env fuel w req idx =
      dispatch env fuel { w with trace := [] } req idx := by
    simp [store_queue_request, hl, hop, hb, ha]
  rw [e1]
  cases ho : env.open_errno with
  | some e =>
    simp [dispatch, hop, sys_open, ho, out_label, St.log, attr_first, Event.needs_attr,
      Event.is_net]
  | none =>
    cases hf : w.files req.rq.oid with
    | none =>
      simp only [dispatch, hop, sys_open, ho, hf, true_or, if_true, decide_True, ne_eq,
        not_true_eq_false, if_false]
      exact create_path_attr env fuel _ req idx hop rfl
    | some f =>
      simp only [dispatch, hop, sys_open, ho, hf, true_or, if_true, decide_True, ne_eq,
        not_true_eq_false, if_false]
      exact create_path_attr env fuel _ req idx hop rfl

/-- C5 at a concrete request: a data object created with three replicas, and
the same request when `fsetxattr` fails. -/
theorem attribute_before_data_witness :
    attr_first false (store_queue_request env_ok 1 st_empty
      (mk_req Opcode.SD_OP_CREATE_AND_WRITE_OBJ 9 5 3) 0).st.trace = true ∧
    (store_queue_request { env_ok with fsetxattr_fails := true } 1 st_empty
      (mk_req Opcode.SD_OP_CREATE_AND_WRITE_OBJ 9 5 3) 0).ret = Res.SD_RES_SYSTEM_ERROR :=
  ⟨(attribute_before_data env_ok 1 st_empty
      (mk_req Opcode.SD_OP_CREATE_AND_WRITE_OBJ 9 5 3) 0 rfl).1,
   ((attribute_before_data { env_ok with fsetxattr_fails := true } 1 st_empty
      (mk_req Opcode.SD_OP_CREATE_AND_WRITE_OBJ 9 5 3) 0 rfl).2 (by decide)).2.1⟩

/-- The scan `attr_first` does reject a trace in which a write precedes the
successful `fsetxattr`. -/
theorem attr_first_rejects_early_write :
    attr_first false [Event.pwrite 1 4 0 4, Event.fsetxattr 1 3 true] = false := by
  rfl

/-! ## Object creation -/

/-- C6, as stated, fails: a copy-on-write create on an object id without file
whose peer fetch finds every candidate unreachable returns the non-success
code 1, and the read that follows at the same epoch returns `SD_RES_SUCCESS`
with replica count 3 and 0 bytes, served from the empty file left behind. -/
theorem failed_cow_create_is_served :
    st_empty.files 9 = none ∧
    (store_queue_request env_unreachable 1 st_empty req_cow 0).returned = true ∧
    (store_queue_request env_unreachable 1 st_empty req_cow 0).ret = Res.one ∧
    (store_queue_request env_unreachable 1 st_empty req_cow 0).req.rp.result = Res.one ∧
    (store_queue_request env_unreachable 1 st_empty req_cow 0).st.files 9
      = some ⟨[], some 3⟩ ∧
    (store_queue_request env_unreachable 1
      (store_queue_request env_unreachable 1 st_empty req_cow 0).st
      (mk_req Opcode.SD_OP_READ_OBJ 9 5 0) 0).ret = Res.SD_RES_SUCCESS ∧
    (store_queue_request env_unreachable 1
      (store_queue_request env_unreachable 1 st_empty req_cow 0).st
      (mk_req Opcode.SD_OP_READ_OBJ 9 5 0) 0).req.rp.copies = 3 ∧
    (store_queue_request env_unreachable 1
      (store_queue_request env_unreachable 1 st_empty req_cow 0).st
      (mk_req Opcode.SD_OP_READ_OBJ 9 5 0) 0).req.rp.data_length = 0 := by
  refine ⟨rfl, ?_, ?_, ?_, ?_, ?_, ?_, ?_⟩ <;> decide

theorem read_without_attribute (env : Env) (fuel : Nat) (s : St) (req : request) (idx : Nat)
    (hop : req.rq.opcode = Opcode.SD_OP_READ_OBJ)
    (hf : ∀ f, s.files req.rq.oid = some f → f.copies = none) :
    (store_queue_request env fuel s req idx).returned = true ∧
    (store_queue_request env fuel s req idx).ret ≠ Res.SD_RES_SUCCESS := by
  by_cases hl : (env.cluster 0).node_list.isEmpty = true
  · simp [store_queue_request, hl, out_label]
  by_cases hb : before req.rq.epoch (env.cluster 0).epoch = true
  · simp [store_queue_request, hl, hop, hb, out_label]
  by_cases ha : after req.rq.epoch (env.cluster 0).epoch = true
  · simp [store_queue_request, hl, hop, hb, ha, out_label]
  cases ho : env.open_errno with
  | some e =>
    by_cases he : e = Errno.ENOENT <;>
      simp [store_queue_request, hl, hop, hb, ha, dispatch, sys_open, ho, out_label, he]
  | none =>
    cases hfile : s.files req.rq.oid with
    | none =>
      simp [store_queue_request, hl, hop, hb, ha, dispatch, sys_open, ho, hfile, out_label]
    | some f =>
      have hc := hf f hfile
      cases hg : env.fgetxattr_fails <;>
        simp [store_queue_request, hl, hop, hb, ha, dispatch, sys_open, ho, hfile, out_label,
          second_switch, file_of, hc, hg]

theorem create_path_without_attribute (env : Env) (fuel : Nat) (s : St) (req : request)
    (idx : Nat) (hop : req.rq.opcode = Opcode.SD_OP_CREATE_AND_WRITE_OBJ)
    (htr : s.trace = [Event.open_file req.rq.oid true true])
    (hfile : s.files req.rq.oid = some ⟨[], none⟩)
    (hattr : Event.fsetxattr req.rq.oid req.rq.copies true ∉
      (create_path env fuel s req idx (some req.rq.oid)).st.trace) :
    (create_path env fuel s req idx (some req.rq.oid)).returned = true ∧
    (create_path env fuel s req idx (some req.rq.oid)).ret ≠ Res.SD_RES_SUCCESS ∧
    (create_path env fuel s req idx (some req.rq.oid)).req.rp.result =
      (create_path env fuel s req idx (some req.rq.oid)).ret ∧
    (create_path env fuel s req idx (some req.rq.oid)).st.files req.rq.oid
      = some ⟨[], none⟩ := by
  revert hattr
  by_cases hc : req.rq.copies = 0
  · simp [create_path, hc, out_label, htr, hfile]
  cases ht : env.ftruncate_fails
  swap
  · simp [create_path, hc, ht, out_label, htr, St.log, hfile]
  cases hs : env.fsetxattr_fails
  swap
  · simp [create_path, hc, ht, hs, out_label, htr, St.log, hfile, file_of]
  cases hd : env.is_data_obj req.rq.oid
  · by_cases hw : pwrite_ret env.data_pwrite req.rq.data_length = (req.rq.data_length : Int)
    · simp [create_path, hc, ht, hs, hd, second_switch, hop, hw, out_label, htr, St.log]
    · simp [create_path, hc, ht, hs, hd, second_switch, hop, hw, out_label, htr, St.log]
  by_cases hcow : req.rq.flags &&& env.SD_FLAG_CMD_COW = 0
  · by_cases hsw : pwrite_ret env.seed_pwrite env.SD_DATA_OBJ_SIZE = (env.SD_DATA_OBJ_SIZE : Int)
    · by_cases hw : pwrite_ret env.data_pwrite req.rq.data_length = (req.rq.data_length : Int)
      · simp [create_path, hc, ht, hs, hd, hcow, seed_write, hsw, second_switch, hop, hw,
          out_label, htr, St.log]
      · simp [create_path, hc, ht, hs, hd, hcow, seed_write, hsw, second_switch, hop, hw,
          out_label, htr, St.log]
    · simp [create_path, hc, ht, hs, hd, hcow, seed_write, hsw, out_label, htr, St.log]
  · simp only [create_path, hc, ht, hs, hd, hcow, if_false, if_true, not_true_eq_false,
      ne_eq, not_false_eq_true, Bool.false_eq_true]
    split
    · rename_i fs hfe
      obtain ⟨evs, hfs, hnet⟩ := fetch_frame_of_eq _ _ _ _ _ _ _ _ _ hfe
      simp [hfs, htr]
    · rename_i v fs hfe
      obtain ⟨evs, hfs, hnet⟩ := fetch_frame_of_eq _ _ _ _ _ _ _ _ _ hfe
      by_cases hv : v = 0
      · by_cases hsw : pwrite_ret env.seed_pwrite env.SD_DATA_OBJ_SIZE
            = (env.SD_DATA_OBJ_SIZE : Int)
        · by_cases hw : pwrite_ret env.data_pwrite req.rq.data_length
              = (req.rq.data_length : Int)
          · simp [hv, seed_write, hsw, second_switch, hop, hw, out_label, hfs, htr]
          · simp [hv, seed_write, hsw, second_switch, hop, hw, out_label, hfs, htr]
        · simp [hv, seed_write, hsw, out_label, hfs, htr]
      · simp [hv, out_label, hfs, htr]


theorem loop_ret0_event (env : Env) (cluster : Nat → cluster_info) (c nr oid offset : Nat) :
    ∀ (k i : Nat) (s : FetchSt),
      (read_from_one_loop env cluster c nr oid offset k i s).1 = LoopExit.ret0 →
      ∃ hdr, Event.exec_req hdr 0 Res.SD_RES_SUCCESS ∈
        (read_from_one_loop env cluster c nr oid offset k i s).2.st.trace := by
  intro k
  induction k with
  | zero => intro i s h; simp [read_from_one_loop] at h
  | succ k ih =>
    intro i s
    rw [read_from_one_loop]
    simp only
    split
    · split
      · exact ih _ _
      · rename_i hret
        split
        · rename_i hres
          intro _
          refine ⟨read_hdr (cluster c).epoch oid s.rlen offset, ?_⟩
          have hret0 : (env.exec_req c i (read_hdr (cluster c).epoch oid s.rlen offset)).ret = 0 := by
            by_contra hne; exact hret hne
          simp [hret0, hres]
        · intro h; simp at h
        · intro h; simp at h
        · exact ih _ _
    · exact ih _ _

theorem rounds_ret0_event (env : Env) (cluster : Nat → cluster_info) (oid offset : Nat) :
    ∀ (fuel c : Nat) (s : FetchSt),
      (read_from_one_rounds env cluster oid offset fuel c s).1 = FetchExit.ret 0 →
      ∃ hdr, Event.exec_req hdr 0 Res.SD_RES_SUCCESS ∈
        (read_from_one_rounds env cluster oid offset fuel c s).2.st.trace := by
  intro fuel
  induction fuel with
  | zero => intro c s h; simp [read_from_one_rounds] at h
  | succ fuel ih =>
    intro c s
    cases hx : (read_from_one_loop env cluster c (cluster c).node_list.length oid offset
      (cluster c).node_list.length 0
      { s with e := overwrite (cluster c).node_list s.e,
               st := s.st.log (Event.build_node_list (cluster c).node_list.length) }).1 with
    | ret0 =>
      rw [rounds_ret0 env cluster oid offset fuel c s hx]
      intro _
      exact loop_ret0_event env cluster c _ oid offset _ _ _ hx
    | exhausted =>
      rw [rounds_exhausted env cluster oid offset fuel c s hx]
      intro h
      simp at h
    | again =>
      rw [rounds_again env cluster oid offset fuel c s hx]
      exact ih _ _

theorem fetch_ret0_event (env : Env) (cluster : Nat → cluster_info) (fuel : Nat) (st : St)
    (oid : Nat) (buf : Bytes) (copies : Nat) (fs : FetchSt)
    (h : read_from_other_sheeps env cluster fuel st oid buf copies = (FetchExit.ret 0, fs)) :
    ∃ hdr, Event.exec_req hdr 0 Res.SD_RES_SUCCESS ∈ fs.st.trace := by
  have := rounds_ret0_event env cluster oid 0 fuel 0
    { st := st, buf := buf, rlen := env.SD_DATA_OBJ_SIZE,
      e := List.replicate env.SD_MAX_NODES zero_entry }
  simp only [read_from_other_sheeps, read_from_one] at h
  rw [h] at this
  exact this rfl

theorem pwrite_copies (f : File) (buf : Bytes) (count off : Nat) (o : WriteOut) :
    (pwrite f buf count off o).copies = f.copies := by
  cases o <;> simp [pwrite, written]

theorem create_path_with_attribute (env : Env) (fuel : Nat) (s : St) (req : request)
    (idx : Nat) (hop : req.rq.opcode = Opcode.SD_OP_CREATE_AND_WRITE_OBJ)
    (htr : s.trace = [Event.open_file req.rq.oid true true])
    (hattr : Event.fsetxattr req.rq.oid req.rq.copies true ∈
      (create_path env fuel s req idx (some req.rq.oid)).st.trace)
    (hret : (create_path env fuel s req idx (some req.rq.oid)).returned = true) :
    ∃ f, (create_path env fuel s req idx (some req.rq.oid)).st.files req.rq.oid = some f ∧
      f.copies = some req.rq.copies ∧
      ((create_path env fuel s req idx (some req.rq.oid)).ret = Res.one → f.data = []) := by
  revert hattr hret
  by_cases hc : req.rq.copies = 0
  · simp [create_path, hc, out_label, htr]
  cases ht : env.ftruncate_fails
  swap
  · simp [create_path, hc, ht, out_label, htr, St.log]
  cases hs : env.fsetxattr_fails
  swap
  · simp [create_path, hc, ht, hs, out_label, htr, St.log]
  cases hd : env.is_data_obj req.rq.oid
  · by_cases hw : pwrite_ret env.data_pwrite req.rq.data_length = (req.rq.data_length : Int)
    · simp [create_path, hc, ht, hs, hd, second_switch, hop, hw, out_label, htr, St.log,
        pwrite_copies, file_of]
    · simp [create_path, hc, ht, hs, hd, second_switch, hop, hw, out_label, htr, St.log,
        pwrite_copies, file_of]
  by_cases hcow : req.rq.flags &&& env.SD_FLAG_CMD_COW = 0
  · by_cases hsw : pwrite_ret env.seed_pwrite env.SD_DATA_OBJ_SIZE = (env.SD_DATA_OBJ_SIZE : Int)
    · by_cases hw : pwrite_ret env.data_pwrite req.rq.data_length = (req.rq.data_length : Int)
      · simp [create_path, hc, ht, hs, hd, hcow, seed_write, hsw, second_switch, hop, hw,
          out_label, htr, St.log, pwrite_copies, file_of]
      · simp [create_path, hc, ht, hs, hd, hcow, seed_write, hsw, second_switch, hop, hw,
          out_label, htr, St.log, pwrite_copies, file_of]
    · simp [create_path, hc, ht, hs, hd, hcow, seed_write, hsw, out_label, htr, St.log,
        pwrite_copies, file_of]
  · simp only [create_path, hc, ht, hs, hd, hcow, if_false, if_true, not_true_eq_false,
      ne_eq, not_false_eq_true, Bool.false_eq_true]
    split
    · simp
    · rename_i v fs hfe
      obtain ⟨evs, hfs, hnet⟩ := fetch_frame_of_eq _ _ _ _ _ _ _ _ _ hfe
      by_cases hv : v = 0
      · by_cases hsw : pwrite_ret env.seed_pwrite env.SD_DATA_OBJ_SIZE
            = (env.SD_DATA_OBJ_SIZE : Int)
        · by_cases hw : pwrite_ret env.data_pwrite req.rq.data_length
              = (req.rq.data_length : Int)
          · simp [hv, seed_write, hsw, second_switch, hop, hw, out_label, hfs, htr,
              pwrite_copies, file_of]
          · simp [hv, seed_write, hsw, second_switch, hop, hw, out_label, hfs, htr,
              pwrite_copies, file_of]
        · simp [hv, seed_write, hsw, out_label, hfs, htr, pwrite_copies, file_of]
      · simp [hv, out_label, hfs, htr, file_of]

theorem write_at_nil (b : Bytes) : write_at [] 0 b = b := by
  unfold write_at
  by_cases hb : b = []
  · simp [hb]
  · simp [hb]

theorem pwrite_of_ret (f : File) (buf : Bytes) (count off : Nat) (o : WriteOut)
    (h : pwrite_ret o count = (count : Int)) :
    pwrite f buf count off o = { f with data := write_at f.data off (buf.take count) } := by
  cases o with
  | full => simp [pwrite, written]
  | short n =>
    simp only [pwrite_ret, written] at h
    have : min n count = count := by exact_mod_cast h
    simp [pwrite, written, this]
  | err => simp [pwrite_ret, written] at h

theorem overwrite_take {α : Type} (b buf : List α) : (overwrite b buf).take b.length = b := by
  simp [overwrite]

theorem create_path_success (env : Env) (fuel : Nat) (s : St) (req : request) (idx : Nat)
    (hop : req.rq.opcode = Opcode.SD_OP_CREATE_AND_WRITE_OBJ)
    (hd : env.is_data_obj req.rq.oid = true)
    (hret : (create_path env fuel s req idx (some req.rq.oid)).returned = true)
    (hsucc : (create_path env fuel s req idx (some req.rq.oid)).ret = Res.SD_RES_SUCCESS) :
    req.rq.copies ≠ 0 ∧
    ∃ seed : Bytes,
      (req.rq.flags &&& env.SD_FLAG_CMD_COW = 0 → seed = List.replicate env.SD_DATA_OBJ_SIZE 0) ∧
      (req.rq.flags &&& env.SD_FLAG_CMD_COW ≠ 0 → ∃ (st3 : St) (fs : FetchSt),
        read_from_other_sheeps env (fun c => env.cluster (c + 1)) fuel st3 req.rq.cow_oid
          (s.zero_block idx) req.rq.copies = (FetchExit.ret 0, fs) ∧
        seed = fs.buf.take env.SD_DATA_OBJ_SIZE ∧
        ∀ e ∈ fs.st.trace, e ∈ (create_path env fuel s req idx (some req.rq.oid)).st.trace) ∧
      (create_path env fuel s req idx (some req.rq.oid)).st.files req.rq.oid =
        some ⟨write_at seed req.rq.offset (req.data.take req.rq.data_length),
              some req.rq.copies⟩ := by
  revert hret hsucc
  by_cases hc : req.rq.copies = 0
  · simp [create_path, hc, out_label]
  cases ht : env.ftruncate_fails
  swap
  · simp [create_path, hc, ht, out_label]
  cases hs : env.fsetxattr_fails
  swap
  · simp [create_path, hc, ht, hs, out_label]
  by_cases hcow : req.rq.flags &&& env.SD_FLAG_CMD_COW = 0
  · by_cases hsw : pwrite_ret env.seed_pwrite env.SD_DATA_OBJ_SIZE = (env.SD_DATA_OBJ_SIZE : Int)
    · by_cases hw : pwrite_ret env.data_pwrite req.rq.data_length = (req.rq.data_length : Int)
      · intro _ _
        refine ⟨hc, List.replicate env.SD_DATA_OBJ_SIZE 0, fun _ => rfl,
          fun h => absurd hcow h, ?_⟩
        have ht2 : (overwrite (List.replicate env.SD_DATA_OBJ_SIZE 0) (s.zero_block idx)).take
            env.SD_DATA_OBJ_SIZE = List.replicate env.SD_DATA_OBJ_SIZE 0 := by
          have := overwrite_take (List.replicate env.SD_DATA_OBJ_SIZE 0) (s.zero_block idx)
          simpa using this
        simp [create_path, hc, ht, hs, hd, hcow, seed_write, hsw, second_switch, hop, hw,
          out_label, file_of, pwrite_of_ret, ht2, write_at_nil]
      · simp [create_path, hc, ht, hs, hd, hcow, seed_write, hsw, second_switch, hop, hw,
          out_label]
    · simp [create_path, hc, ht, hs, hd, hcow, seed_write, hsw, out_label]
  · simp only [create_path, hc, ht, hs, hd, hcow, if_false, if_true, not_true_eq_false,
      ne_eq, not_false_eq_true, Bool.false_eq_true]
    split
    · simp
    · rename_i v fs hfe
      obtain ⟨evs, hfs, hnet⟩ := fetch_frame_of_eq _ _ _ _ _ _ _ _ _ hfe
      by_cases hv : v = 0
      · subst hv
        by_cases hsw : pwrite_ret env.seed_pwrite env.SD_DATA_OBJ_SIZE
            = (env.SD_DATA_OBJ_SIZE : Int)
        · by_cases hw : pwrite_ret env.data_pwrite req.rq.data_length
              = (req.rq.data_length : Int)
          · intro _ _
            refine ⟨trivial, fs.buf.take env.SD_DATA_OBJ_SIZE, fun h => h.elim,
              fun _ => ⟨_, fs, hfe, rfl, ?_⟩, ?_⟩
            · intro e he
              simp only [seed_write, hsw, second_switch, hop, hw, out_label, ne_eq,
                not_true_eq_false, if_false, List.mem_append]
              exact Or.inl (Or.inl (Or.inl he))
            · simp [seed_write, hsw, second_switch, hop, hw, out_label, hfs, file_of,
                pwrite_of_ret, write_at_nil]
          · simp [seed_write, hsw, second_switch, hop, hw, out_label, hfs]
        · simp [seed_write, hsw, out_label, hfs]
      · simp [hv, out_label, hfs]

theorem read_with_attribute (env : Env) (fuel : Nat) (s : St) (req : request) (idx : Nat)
    (f : File) (n : Nat)
    (hop : req.rq.opcode = Opcode.SD_OP_READ_OBJ)
    (hf : s.files req.rq.oid = some f) (hc : f.copies = some n) :
    ((store_queue_request env fuel s req idx).ret = Res.SD_RES_SUCCESS →
      (store_queue_request env fuel s req idx).req.rp.copies = n) ∧
    ((env.cluster 0).node_list ≠ [] → req.rq.epoch = (env.cluster 0).epoch →
      env.open_errno = none → env.fgetxattr_fails = false → env.pread_fails = false →
      (store_queue_request env fuel s req idx).returned = true ∧
      (store_queue_request env fuel s req idx).ret = Res.SD_RES_SUCCESS ∧
      (store_queue_request env fuel s req idx).req.rp.copies = n) := by
  constructor
  · by_cases hl : (env.cluster 0).node_list.isEmpty = true
    · simp [store_queue_request, hl, out_label]
    by_cases hb : before req.rq.epoch (env.cluster 0).epoch = true
    · simp [store_queue_request, hl, hop, hb, out_label]
    by_cases ha : after req.rq.epoch (env.cluster 0).epoch = true
    · simp [store_queue_request, hl, hop, hb, ha, out_label]
    cases ho : env.open_errno with
    | some e =>
      by_cases he : e = Errno.ENOENT <;>
        simp [store_queue_request, hl, hop, hb, ha, dispatch, sys_open, ho, out_label, he]
    | none =>
      cases hg : env.fgetxattr_fails <;> cases hp : env.pread_fails <;>
        simp [store_queue_request, hl, hop, hb, ha, dispatch, sys_open, ho, hf, out_label,
          second_switch, file_of, hc, hg, hp, St.log]
  · intro hl he ho hg hp
    have hne : (env.cluster 0).node_list.isEmpty = false := by
      cases h : (env.cluster 0).node_list with
      | nil => exact absurd h hl
      | cons a l => rfl
    simp [store_queue_request, hne, hop, before, after, he, dispatch, sys_open, ho, hf,
      out_label, second_switch, file_of, hc, hg, hp, St.log]

theorem create_success_state (env : Env) (fuel : Nat) (w : St) (req : request) (idx : Nat)
    (hop : req.rq.opcode = Opcode.SD_OP_CREATE_AND_WRITE_OBJ)
    (hd : env.is_data_obj req.rq.oid = true)
    (hret : (store_queue_request env fuel w req idx).returned = true)
    (hsucc : (store_queue_request env fuel w req idx).ret = Res.SD_RES_SUCCESS) :
    req.rq.copies ≠ 0 ∧ ∃ seed : Bytes,
      (req.rq.flags &&& env.SD_FLAG_CMD_COW = 0 → seed = List.replicate env.SD_DATA_OBJ_SIZE 0) ∧
      (req.rq.flags &&& env.SD_FLAG_CMD_COW ≠ 0 → ∃ (st3 : St) (fs : FetchSt),
        read_from_other_sheeps env (fun c => env.cluster (c + 1)) fuel st3 req.rq.cow_oid
          (w.zero_block idx) req.rq.copies = (FetchExit.ret 0, fs) ∧
        seed = fs.buf.take env.SD_DATA_OBJ_SIZE ∧
        ∀ e ∈ fs.st.trace, e ∈ (store_queue_request env fuel w req idx).st.trace) ∧
      (store_queue_request env fuel w req idx).st.files req.rq.oid =
        some ⟨write_at seed req.rq.offset (req.data.take req.rq.data_length),
              some req.rq.copies⟩ := by
  revert hret hsucc
  by_cases hl : (env.cluster 0).node_list.isEmpty = true
  · simp [store_queue_request, hl, out_label]
  by_cases hb : before req.rq.epoch (env.cluster 0).epoch = true
  · simp [store_queue_request, hl, hop, hb, out_label]
  by_cases ha : after req.rq.epoch (env.cluster 0).epoch = true
  · simp [store_queue_request, hl, hop, hb, ha, out_label]
  have e1 : store_queue_request env fuel w req idx =
      dispatch env fuel { w with trace := [] } req idx := by
    simp [store_queue_request, hl, hop, hb, ha]
  rw [e1]
  cases ho : env.open_errno with
  | some e =>
    by_cases he : e = Errno.ENOENT <;> simp [dispatch, hop, sys_open, ho, out_label, he]
  | none =>
    cases hf : w.files req.rq.oid with
    | none =>
      simp only [dispatch, hop, sys_open, ho, hf, true_or, if_true, decide_True, ne_eq,
        not_true_eq_false, if_false]
      intro hret hsucc
      exact create_path_success env fuel _ req idx hop hd hret hsucc
    | some f0 =>
      simp only [dispatch, hop, sys_open, ho, hf, true_or, if_true, decide_True, ne_eq,
        not_true_eq_false, if_false]
      intro hret hsucc
      exact create_path_success env fuel _ req idx hop hd hret hsucc

/-- C6 (amended): for a create-and-write request on an object id without
file. (1) If it ends without a successful `fsetxattr` (rejected by the fence,
failed `open`, zero replica count, failed `ftruncate`, failed `fsetxattr`), it
has returned a non-success result code, stored in the response, and every read
request for the same object id that follows, in whatever environment, returns
without `SD_RES_SUCCESS`. (2) A copy-on-write create of a data object that
returns although no peer answered the fetch with `SD_RES_SUCCESS` returns a
non-success result code. (3) Once `fsetxattr` has succeeded, a create that
returns, with whatever result code (failed peer fetch, short seed write, short
payload write, success), leaves the file in place with the replica count of
the request as its attribute, empty when the result code is the literal 1 of
the failed peer fetch; nothing is undone, and a read of the object that
follows at the node's epoch and on which no operation fails returns
`SD_RES_SUCCESS` with that replica count. -/
theorem failed_create_before_attribute_not_served (env : Env) (fuel : Nat) (w : St)
    (req : request) (idx : Nat)
    (hop : req.rq.opcode = Opcode.SD_OP_CREATE_AND_WRITE_OBJ)
    (hnew : w.files req.rq.oid = none) :
    (Event.fsetxattr req.rq.oid req.rq.copies true ∉
        (store_queue_request env fuel w req idx).st.trace →
      (store_queue_request env fuel w req idx).returned = true ∧
      (store_queue_request env fuel w req idx).ret ≠ Res.SD_RES_SUCCESS ∧
      (store_queue_request env fuel w req idx).req.rp.result =
        (store_queue_request env fuel w req idx).ret ∧
      ∀ (env2 : Env) (fuel2 : Nat) (req2 : request) (idx2 : Nat),
        req2.rq.opcode = Opcode.SD_OP_READ_OBJ → req2.rq.oid = req.rq.oid →
        (store_queue_request env2 fuel2 (store_queue_request env fuel w req idx).st req2
          idx2).returned = true ∧
        (store_queue_request env2 fuel2 (store_queue_request env fuel w req idx).st req2
          idx2).ret ≠ Res.SD_RES_SUCCESS) ∧
    (env.is_data_obj req.rq.oid = true → req.rq.flags &&& env.SD_FLAG_CMD_COW ≠ 0 →
      (store_queue_request env fuel w req idx).returned = true →
      (∀ hdr, Event.exec_req hdr 0 Res.SD_RES_SUCCESS ∉
        (store_queue_request env fuel w req idx).st.trace) →
      (store_queue_request env fuel w req idx).ret ≠ Res.SD_RES_SUCCESS) ∧
    (Event.fsetxattr req.rq.oid req.rq.copies true ∈
        (store_queue_request env fuel w req idx).st.trace →
      (store_queue_request env fuel w req idx).returned = true →
      ∃ f, (store_queue_request env fuel w req idx).st.files req.rq.oid = some f ∧
        f.copies = some req.rq.copies ∧
        ((store_queue_request env fuel w req idx).ret = Res.one → f.data = []) ∧
        ∀ (env2 : Env) (fuel2 : Nat) (req2 : request) (idx2 : Nat),
          req2.rq.opcode = Opcode.SD_OP_READ_OBJ → req2.rq.oid = req.rq.oid →
          (env2.cluster 0).node_list ≠ [] → req2.rq.epoch = (env2.cluster 0).epoch →
          env2.open_errno = none → env2.fgetxattr_fails = false → env2.pread_fails = false →
          (store_queue_request env2 fuel2 (store_queue_request env fuel w req idx).st req2
            idx2).returned = true ∧
          (store_queue_request env2 fuel2 (store_queue_request env fuel w req idx).st req2
            idx2).ret = Res.SD_RES_SUCCESS ∧
          (store_queue_request env2 fuel2 (store_queue_request env fuel w req idx).st req2
            idx2).req.rp.copies = req.rq.copies) := by
  refine ⟨?_, ?_, ?_⟩
  rotate_left
  · intro hd hcow hret hno hsucc
    obtain ⟨_, seed, _, hc, _⟩ := create_success_state env fuel w req idx hop hd hret hsucc
    obtain ⟨st3, fs, hfe, _, hin⟩ := hc hcow
    obtain ⟨hdr, hmem⟩ := fetch_ret0_event env _ fuel st3 _ _ _ fs hfe
    exact hno hdr (hin _ hmem)
  · intro hattr hret
    have main : ∃ f, (store_queue_request env fuel w req idx).st.files req.rq.oid = some f ∧
        f.copies = some req.rq.copies ∧
        ((store_queue_request env fuel w req idx).ret = Res.one → f.data = []) := by
      revert hattr hret
      by_cases hl : (env.cluster 0).node_list.isEmpty = true
      · simp [store_queue_request, hl, out_label]
      by_cases hb : before req.rq.epoch (env.cluster 0).epoch = true
      · simp [store_queue_request, hl, hop, hb, out_label]
      by_cases ha : after req.rq.epoch (env.cluster 0).epoch = true
      · simp [store_queue_request, hl, hop, hb, ha, out_label]
      have e1 : store_queue_request env fuel w req idx =
          dispatch env fuel { w with trace := [] } req idx := by
        simp [store_queue_request, hl, hop, hb, ha]
      rw [e1]
      cases ho : env.open_errno with
      | some e => simp [dispatch, hop, sys_open, ho, out_label, St.log]
      | none =>
        simp only [dispatch, hop, sys_open, ho, hnew, true_or, if_true, decide_True, ne_eq,
          not_true_eq_false, if_false]
        intro hattr hret
        exact create_path_with_attribute env fuel _ req idx hop rfl hattr hret
    obtain ⟨f, hf, hcop, hone⟩ := main
    refine ⟨f, hf, hcop, hone, ?_⟩
    intro env2 fuel2 req2 idx2 hop2 hoid hl2 he2 ho2 hg2 hp2
    exact (read_with_attribute env2 fuel2 _ req2 idx2 f req.rq.copies hop2
      (by rw [hoid]; exact hf) hcop).2 hl2 he2 ho2 hg2 hp2
  intro hattr
  have main : (store_queue_request env fuel w req idx).returned = true ∧
      (store_queue_request env fuel w req idx).ret ≠ Res.SD_RES_SUCCESS ∧
      (store_queue_request env fuel w req idx).req.rp.result =
        (store_queue_request env fuel w req idx).ret ∧
      ∀ f, (store_queue_request env fuel w req idx).st.files req.rq.oid = some f →
        f.copies = none := by
    revert hattr
    by_cases hl : (env.cluster 0).node_list.isEmpty = true
    · simp [store_queue_request, hl, out_label, hnew]
    by_cases hb : before req.rq.epoch (env.cluster 0).epoch = true
    · simp [store_queue_request, hl, hop, hb, out_label, hnew]
    by_cases ha : after req.rq.epoch (env.cluster 0).epoch = true
    · simp [store_queue_request, hl, hop, hb, ha, out_label, hnew]
    have e1 : store_queue_request env fuel w req idx =
        dispatch env fuel { w with trace := [] } req idx := by
      simp [store_queue_request, hl, hop, hb, ha]
    rw [e1]
    cases ho : env.open_errno with
    | some e =>
      by_cases he : e = Errno.ENOENT <;>
        simp [dispatch, hop, sys_open, ho, out_label, St.log, hnew, he]
    | none =>
      simp only [dispatch, hop, sys_open, ho, hnew, true_or, if_true, decide_True, ne_eq,
        not_true_eq_false, if_false]
      intro hattr
      obtain ⟨h1, h2, h3, h4⟩ := create_path_without_attribute env fuel _ req idx hop rfl
        (by simp) hattr
      refine ⟨h1, h2, h3, ?_⟩
      intro f hf
      rw [h4] at hf
      cases hf
      rfl
  refine ⟨main.1, main.2.1, main.2.2.1, ?_⟩
  intro env2 fuel2 req2 idx2 hop2 hoid
  exact read_without_attribute env2 fuel2 _ req2 idx2 hop2 (by rw [hoid]; exact main.2.2.2)

/-- The amended C6 at concrete requests: a create whose `fsetxattr` fails,
followed by a read of the same object; and a copy-on-write create with every
peer unreachable, which returns a failure and leaves an empty file with its
attribute, from which the read that follows is served. -/
theorem failed_create_before_attribute_not_served_witness :
    (store_queue_request { env_ok with fsetxattr_fails := true } 1 st_empty
      (mk_req Opcode.SD_OP_CREATE_AND_WRITE_OBJ 9 5 3) 0).ret ≠ Res.SD_RES_SUCCESS ∧
    (store_queue_request env_ok 1
      (store_queue_request { env_ok with fsetxattr_fails := true } 1 st_empty
        (mk_req Opcode.SD_OP_CREATE_AND_WRITE_OBJ 9 5 3) 0).st
      (mk_req Opcode.SD_OP_READ_OBJ 9 5 0) 0).ret ≠ Res.SD_RES_SUCCESS ∧
    (store_queue_request env_unreachable 1 st_empty req_cow 0).ret ≠ Res.SD_RES_SUCCESS ∧
    (∃ f, (store_queue_request env_unreachable 1 st_empty req_cow 0).st.files 9 = some f ∧
      f.copies = some 3 ∧ f.data = []) ∧
    (store_queue_request env_ok 1 (store_queue_request env_unreachable 1 st_empty req_cow 0).st
      (mk_req Opcode.SD_OP_READ_OBJ 9 5 0) 0).ret = Res.SD_RES_SUCCESS := by
  have h := (failed_create_before_attribute_not_served { env_ok with fsetxattr_fails := true } 1
    st_empty (mk_req Opcode.SD_OP_CREATE_AND_WRITE_OBJ 9 5 3) 0 rfl rfl).1 (by decide)
  have ht : (store_queue_request env_unreachable 1 st_empty req_cow 0).st.trace =
      [Event.open_file 9 true true, Event.ftruncate 9 true, Event.fsetxattr 9 3 true,
       Event.build_node_list 3, Event.connect_to (10, 0, 0, 2) 7000 false,
       Event.connect_to (10, 0, 0, 3) 7000 false,
       Event.connect_to (10, 0, 0, 1) 7000 false, Event.close 9] := by decide
  have h2 := (failed_create_before_attribute_not_served env_unreachable 1 st_empty req_cow 0
    rfl rfl).2.1 rfl (by decide) (by decide) (by intro hdr; rw [ht]; simp)
  obtain ⟨f, hf, hcop, hone, hread⟩ :=
    (failed_create_before_attribute_not_served env_unreachable 1 st_empty req_cow 0
      rfl rfl).2.2 (by decide) (by decide)
  exact ⟨h.2.1, (h.2.2.2 env_ok 1 (mk_req Opcode.SD_OP_READ_OBJ 9 5 0) 0 rfl rfl).2, h2,
    ⟨f, hf, hcop, hone (by decide)⟩,
    (hread env_ok 1 (mk_req Opcode.SD_OP_READ_OBJ 9 5 0) 0 rfl rfl (by decide) rfl rfl rfl
      rfl).2.1⟩

theorem create_path_handles (env : Env) (fuel : Nat) (s : St) (req : request) (idx : Nat)
    (hs0 : List Handle)
    (hop : req.rq.opcode = Opcode.SD_OP_CREATE_AND_WRITE_OBJ)
    (hh : s.handles = Handle.file req.rq.oid :: hs0)
    (hret : (create_path env fuel s req idx (some req.rq.oid)).returned = true) :
    (create_path env fuel s req idx (some req.rq.oid)).st.handles = hs0 := by
  revert hret
  by_cases hc : req.rq.copies = 0
  · simp [create_path, hc, out_label, hh]
  cases ht : env.ftruncate_fails
  swap
  · simp [create_path, hc, ht, out_label, St.log, hh]
  cases hs : env.fsetxattr_fails
  swap
  · simp [create_path, hc, ht, hs, out_label, St.log, hh]
  cases hd : env.is_data_obj req.rq.oid
  · by_cases hw : pwrite_ret env.data_pwrite req.rq.data_length = (req.rq.data_length : Int)
    · simp [create_path, hc, ht, hs, hd, second_switch, hop, hw, out_label, hh]
    · simp [create_path, hc, ht, hs, hd, second_switch, hop, hw, out_label, hh]
  by_cases hcow : req.rq.flags &&& env.SD_FLAG_CMD_COW = 0
  · by_cases hsw : pwrite_ret env.seed_pwrite env.SD_DATA_OBJ_SIZE = (env.SD_DATA_OBJ_SIZE : Int)
    · by_cases hw : pwrite_ret env.data_pwrite req.rq.data_length = (req.rq.data_length : Int)
      · simp [create_path, hc, ht, hs, hd, hcow, seed_write, hsw, second_switch, hop, hw,
          out_label, hh]
      · simp [create_path, hc, ht, hs, hd, hcow, seed_write, hsw, second_switch, hop, hw,
          out_label, hh]
    · simp [create_path, hc, ht, hs, hd, hcow, seed_write, hsw, out_label, hh]
  · simp only [create_path, hc, ht, hs, hd, hcow, if_false, if_true, not_true_eq_false,
      ne_eq, not_false_eq_true, Bool.false_eq_true]
    split
    · simp
    · rename_i v fs hfe
      obtain ⟨evs, hfs, hnet⟩ := fetch_frame_of_eq _ _ _ _ _ _ _ _ _ hfe
      by_cases hv : v = 0
      · by_cases hsw : pwrite_ret env.seed_pwrite env.SD_DATA_OBJ_SIZE
            = (env.SD_DATA_OBJ_SIZE : Int)
        · by_cases hw : pwrite_ret env.data_pwrite req.rq.data_length
              = (req.rq.data_length : Int)
          · simp [hv, seed_write, hsw, second_switch, hop, hw, out_label, hfs, hh]
          · simp [hv, seed_write, hsw, second_switch, hop, hw, out_label, hfs, hh]
        · simp [hv, seed_write, hsw, out_label, hfs, hh]
      · simp [hv, out_label, hfs, hh]

/-- Every request other than the capacity query leaves the table of open
handles as it found it when it returns: the descriptor opened at line 187 is
closed at `out:`, and each socket of the peer fetch is closed before the next
attempt. -/
theorem handles_released_unless_stat (env : Env) (fuel : Nat) (w : St) (req : request)
    (idx : Nat) (hop : req.rq.opcode ≠ Opcode.SD_OP_STAT_SHEEP)
    (hret : (store_queue_request env fuel w req idx).returned = true) :
    (store_queue_request env fuel w req idx).st.handles = w.handles := by
  revert hret
  by_cases hl : (env.cluster 0).node_list.isEmpty = true
  · simp [store_queue_request, hl, out_label]
  have hfence : (store_queue_request env fuel w req idx).returned = true →
      (store_queue_request env fuel w req idx).st.handles ≠ w.handles →
      store_queue_request env fuel w req idx =
        dispatch env fuel { w with trace := [] } req idx := by
    intro _ hne
    by_cases hg : req.rq.opcode = Opcode.SD_OP_GET_NODE_LIST
    · simp [store_queue_request, hl, hg]
    by_cases hb : before req.rq.epoch (env.cluster 0).epoch = true
    · exact absurd (by simp [store_queue_request, hl, hg, hb, out_label]) hne
    by_cases ha : after req.rq.epoch (env.cluster 0).epoch = true
    · exact absurd (by simp [store_queue_request, hl, hg, hb, ha, out_label]) hne
    simp [store_queue_request, hl, hg, hb, ha]
  intro hret
  by_contra hne
  have e1 := hfence hret hne
  rw [e1] at hret hne
  apply hne
  revert hret
  cases hopc : req.rq.opcode with
  | SD_OP_STAT_SHEEP => exact absurd hopc hop
  | SD_OP_CREATE_AND_WRITE_OBJ =>
    cases ho : env.open_errno with
    | some e => simp [dispatch, hopc, sys_open, ho, out_label, St.log]
    | none =>
      cases hf : w.files req.rq.oid with
      | none =>
        simp only [dispatch, hopc, sys_open, ho, hf, true_or, if_true, decide_True, ne_eq,
          not_true_eq_false, if_false]
        exact create_path_handles env fuel _ req idx w.handles hopc rfl
      | some f =>
        simp only [dispatch, hopc, sys_open, ho, hf, true_or, if_true, decide_True, ne_eq,
          not_true_eq_false, if_false]
        exact create_path_handles env fuel _ req idx w.handles hopc rfl
  | SD_OP_WRITE_OBJ =>
    cases ho : env.open_errno <;> cases hf : w.files req.rq.oid <;>
      by_cases hw : pwrite_ret env.data_pwrite req.rq.data_length = (req.rq.data_length : Int) <;>
      simp [dispatch, hopc, sys_open, ho, hf, out_label, St.log, second_switch, hw]
  | SD_OP_READ_OBJ =>
    cases ho : env.open_errno <;> cases hf : w.files req.rq.oid <;>
      cases hg : env.fgetxattr_fails <;> cases hp : env.pread_fails <;>
      simp [dispatch, hopc, sys_open, ho, hf, out_label, St.log, second_switch, hg, hp]
    all_goals (split <;> simp)
  | SD_OP_SYNC_OBJ =>
    cases ho : env.open_errno <;> cases hf : w.files req.rq.oid <;>
      cases hy : env.fsync_errno <;>
      simp [dispatch, hopc, sys_open, ho, hf, out_label, St.log, second_switch, hy]
    all_goals (split <;> simp)
  | SD_OP_REMOVE_OBJ =>
    cases hf : w.files req.rq.oid <;> cases hu : env.unlink_fails <;>
      simp [dispatch, hopc, out_label, St.log, second_switch, hf, hu]
  | SD_OP_GET_NODE_LIST => simp [dispatch, hopc, out_label, second_switch]
  | other n => simp [dispatch, hopc, out_label, second_switch]

end Collie
